import Mathlib

/-!
Shallow embedding of `src/server/browserless-auth-service.ts`
(class `BrowserlessAuthService`).

The browser (Playwright) is modelled by an `Oracle`: a function
`throwsAt : Nat -> Bool` decides, per awaited browser call (counted in
program order), whether that call rejects, and the remaining fields give
the data the browser returns (text contents per selector, page title,
base64 payloads, visibility of elements).  A `BState` carries the call
counter, how many browsing contexts were opened and closed, the extra
HTTP headers currently set on the page, the current URL, the flow logs
and screenshots accumulators, and a trace of browser events.  Async
methods become functions `BState -> Outcome α` where an `Outcome` is
either a returned value or a thrown error, each with the final state;
`try/finally` and `try/catch` are translated explicitly.

Abstractions: `context.close()` is modelled as always succeeding;
`page.title()`, `page.url()` and the `locator(...).isVisible()` and
`textContent()` reads inside `extractUserInfo` are modelled as
infallible reads of the oracle; timestamps are a fixed constant; base64
encoding of a binary payload is the oracle-supplied string itself.
`TEST_USER` is imported by the source from `./auth-bypass`, which is not
part of the sources; it is an opaque identity value here.
-/

namespace BrowserlessAuth

/-- Viewport size as in Playwright context options. -/
structure Viewport where
  width : Nat
  height : Nat
deriving DecidableEq, Repr

/-- The options record accepted by every public method
(`AuthenticatedBrowserOptions` in the source). -/
structure AuthenticatedBrowserOptions where
  viewport : Option Viewport := none
  userAgent : Option String := none
  bypassAuth : Option Bool := none
  sessionData : Option String := none
  timeout : Option Nat := none
deriving DecidableEq, Repr

/-- The options actually passed to `browser.newContext(...)`. -/
structure ContextOptions where
  viewport : Option Viewport := none
  userAgent : Option String := none
deriving DecidableEq, Repr

/-- Observable browser events, recorded in the order the corresponding
browser calls complete successfully. -/
inductive BrowserEvent where
  | newContext (opts : ContextOptions)
  | newPage
  | setExtraHTTPHeaders (headers : List (String × String))
  | goto (url : String)
  | waitForSelector (selector : String) (timeoutMs : Nat)
  | warn
  | screenshot (fullPage : Bool)
  | pdf (format : String) (printBackground : Bool)
      (top right bottom left : String)
  | click (selector : String)
  | fill (selector : String) (value : String)
  | waitForTimeout (ms : Nat)
  | allTextContents (selector : String)
  | closeContext
deriving DecidableEq, Repr

/-- The environment: per-call failure behaviour and returned data. -/
structure Oracle where
  throwsAt : Nat → Bool
  texts : String → List String
  title : String
  shotB64 : String
  pdfB64 : String
  visible : String → Bool
  textContent : String → String

/-- Program state threaded through an operation. -/
structure BState where
  oracle : Oracle
  appBaseUrl : String
  calls : Nat
  contextsOpened : Nat
  contextsClosed : Nat
  headers : List (String × String)
  viewport : Option Viewport
  currentUrl : String
  logs : List String
  shots : List String
  trace : List BrowserEvent

/-- Result of running an async method body: a value or a thrown error,
with the state at that point. -/
inductive Outcome (α : Type) where
  | ok : α → BState → Outcome α
  | thrown : String → BState → Outcome α

/-- The state carried by an outcome, whichever branch it is. -/
def stOf {α : Type} : Outcome α → BState
  | .ok _ s => s
  | .thrown _ s => s

/-- An async computation over the browser state. -/
def M (α : Type) : Type := BState → Outcome α

instance : Monad M where
  pure a := fun s => .ok a s
  bind m f := fun s =>
    match m s with
    | .ok a s' => f a s'
    | .thrown e s' => .thrown e s'

/-- JavaScript `try { m } catch (e) { h e }`. -/
def tryCatch {α : Type} (m : M α) (h : String → M α) : M α := fun s =>
  match m s with
  | .ok a s' => .ok a s'
  | .thrown e s' => h e s'

/-- Running the `finally` block after the protected block finished with
outcome `out`: the finaliser runs on both exits; if it throws, its error
replaces the outcome. -/
def finish {α : Type} (fin : M Unit) (out : Outcome α) : Outcome α :=
  match out with
  | .ok a s' =>
    match fin s' with
    | .ok _ s'' => .ok a s''
    | .thrown e s'' => .thrown e s''
  | .thrown e s' =>
    match fin s' with
    | .ok _ s'' => .thrown e s''
    | .thrown e2 s'' => .thrown e2 s''

/-- JavaScript `try { m } finally { fin }`. -/
def tryFinally {α : Type} (m : M α) (fin : M Unit) : M α := fun s =>
  finish fin (m s)

/-- Read the current state (used to model reads of local JS values). -/
def getS : M BState := fun s => .ok s s

/-- `this.getPlaywrightBrowser()` - acquires the shared browser handle. -/
def getPlaywrightBrowser : M Unit := fun s =>
  if s.oracle.throwsAt s.calls then
    .thrown "getPlaywrightBrowser" { s with calls := s.calls + 1 }
  else
    .ok () { s with calls := s.calls + 1 }

/-- `browser.newContext(opts)`. -/
def newContext (opts : ContextOptions) : M Unit := fun s =>
  if s.oracle.throwsAt s.calls then
    .thrown "newContext" { s with calls := s.calls + 1 }
  else
    .ok () { s with
      calls := s.calls + 1,
      contextsOpened := s.contextsOpened + 1,
      viewport := opts.viewport,
      headers := [],
      currentUrl := "about:blank",
      trace := s.trace ++ [.newContext opts] }

/-- `context.newPage()`. -/
def newPage : M Unit := fun s =>
  if s.oracle.throwsAt s.calls then
    .thrown "newPage" { s with calls := s.calls + 1 }
  else
    .ok () { s with calls := s.calls + 1, trace := s.trace ++ [.newPage] }

/-- `page.setExtraHTTPHeaders(hs)`: replaces the extra headers. -/
def setExtraHTTPHeaders (hs : List (String × String)) : M Unit := fun s =>
  if s.oracle.throwsAt s.calls then
    .thrown "setExtraHTTPHeaders" { s with calls := s.calls + 1 }
  else
    .ok () { s with
      calls := s.calls + 1,
      headers := hs,
      trace := s.trace ++ [.setExtraHTTPHeaders hs] }

/-- `page.goto(url, { waitUntil: "networkidle" })`. -/
def goto (url : String) : M Unit := fun s =>
  if s.oracle.throwsAt s.calls then
    .thrown ("goto " ++ url) { s with calls := s.calls + 1 }
  else
    .ok () { s with
      calls := s.calls + 1,
      currentUrl := url,
      trace := s.trace ++ [.goto url] }

/-- `page.waitForSelector(sel, { timeout })` - rejects on timeout. -/
def waitForSelector (sel : String) (timeoutMs : Nat) : M Unit := fun s =>
  if s.oracle.throwsAt s.calls then
    .thrown ("waitForSelector " ++ sel) { s with calls := s.calls + 1 }
  else
    .ok () { s with
      calls := s.calls + 1,
      trace := s.trace ++ [.waitForSelector sel timeoutMs] }

/-- The `console.log` warning emitted when the readiness marker is not
found; recorded as an observable event. -/
def warnNoMarker : M Unit := fun s =>
  .ok () { s with trace := s.trace ++ [.warn] }

/-- `page.screenshot({ fullPage, type: "png" })`, already base64. -/
def screenshotPrim (fullPage : Bool) : M String := fun s =>
  if s.oracle.throwsAt s.calls then
    .thrown "screenshot" { s with calls := s.calls + 1 }
  else
    .ok s.oracle.shotB64 { s with
      calls := s.calls + 1,
      trace := s.trace ++ [.screenshot fullPage] }

/-- `page.pdf({ format, printBackground, margin })`, already base64. -/
def pdfPrim (format : String) (printBackground : Bool)
    (top right bottom left : String) : M String := fun s =>
  if s.oracle.throwsAt s.calls then
    .thrown "pdf" { s with calls := s.calls + 1 }
  else
    .ok s.oracle.pdfB64 { s with
      calls := s.calls + 1,
      trace := s.trace ++ [.pdf format printBackground top right bottom left] }

/-- `page.click(sel)`. -/
def clickPrim (sel : String) : M Unit := fun s =>
  if s.oracle.throwsAt s.calls then
    .thrown ("click " ++ sel) { s with calls := s.calls + 1 }
  else
    .ok () { s with calls := s.calls + 1, trace := s.trace ++ [.click sel] }

/-- `page.fill(sel, v)`. -/
def fillPrim (sel : String) (v : String) : M Unit := fun s =>
  if s.oracle.throwsAt s.calls then
    .thrown ("fill " ++ sel) { s with calls := s.calls + 1 }
  else
    .ok () { s with calls := s.calls + 1, trace := s.trace ++ [.fill sel v] }

/-- `page.waitForTimeout(ms)`. -/
def waitForTimeout (ms : Nat) : M Unit := fun s =>
  if s.oracle.throwsAt s.calls then
    .thrown "waitForTimeout" { s with calls := s.calls + 1 }
  else
    .ok () { s with
      calls := s.calls + 1,
      trace := s.trace ++ [.waitForTimeout ms] }

/-- `page.locator(sel).allTextContents()`. -/
def allTextContents (sel : String) : M (List String) := fun s =>
  if s.oracle.throwsAt s.calls then
    .thrown ("allTextContents " ++ sel) { s with calls := s.calls + 1 }
  else
    .ok (s.oracle.texts sel) { s with
      calls := s.calls + 1,
      trace := s.trace ++ [.allTextContents sel] }

/-- `context.close()` - modelled as always succeeding. -/
def closeContext : M Unit := fun s =>
  .ok () { s with
    contextsClosed := s.contextsClosed + 1,
    trace := s.trace ++ [.closeContext] }

/-- Append one entry to the local `logs` array of `testUserFlow`. -/
def pushLog (l : String) : M Unit := fun s =>
  .ok () { s with logs := s.logs ++ [l] }

/-- Append one entry to the local `screenshots` array of `testUserFlow`. -/
def pushShot (x : String) : M Unit := fun s =>
  .ok () { s with shots := s.shots ++ [x] }

/-- Fresh empty `screenshots`/`logs` arrays declared in `testUserFlow`. -/
def resetAccums : M Unit := fun s =>
  .ok () { s with logs := [], shots := [] }

/-- Default viewport `{ width: 1920, height: 1080 }`. -/
def defaultViewport : Viewport := ⟨1920, 1080⟩

/-- Default user agent string. -/
def defaultUserAgent : String := "Mozilla/5.0 (compatible; Playwright Testing Bot)"

/-- The two fixed auth bypass headers. -/
def bypassHeaders : List (String × String) :=
  [("x-test-auth-bypass", "true"), ("x-testing-mode", "true")]

/-- The readiness marker selector. -/
def authMarker : String := "[data-testid=\"authenticated-content\"]"

/-- Modelled from the spec: `TEST_USER`, the fixed synthetic test-user
identity imported from the excluded `./auth-bypass` module; opaque here. -/
def TEST_USER : String := "test-user"

/-- Modelled timestamp for `new Date().toISOString()`. -/
def modelTimestamp : String := "1970-01-01T00:00:00.000Z"

/-- Metadata attached to capture results. -/
structure CaptureMetadata where
  url : String
  title : String
  viewportSize : Option Viewport := none
  authenticated : Option Bool := none
  user : String
deriving DecidableEq, Repr

/-- Return value of `takeAuthenticatedScreenshot`. -/
structure ScreenshotResult where
  screenshot : String
  timestamp : String
  metadata : CaptureMetadata
deriving DecidableEq, Repr

/-- Return value of `generateAuthenticatedPDF`. -/
structure PDFResult where
  pdf : String
  timestamp : String
  metadata : CaptureMetadata
deriving DecidableEq, Repr

/-- Return value of `testUserFlow`. -/
structure FlowResult where
  success : Bool
  screenshots : List String
  logs : List String
  timestamp : String
deriving DecidableEq, Repr

/-- A value stored in the `data` object built by
`scrapeAuthenticatedContent`. -/
inductive ScrapeValue where
  | texts : List String → ScrapeValue
  | errorString : String → ScrapeValue
  | str : String → ScrapeValue
  | userInfo : List (String × String) → ScrapeValue
deriving DecidableEq, Repr

/-- Return value of `scrapeAuthenticatedContent`; `data` models the JS
object as an insertion-ordered key/value list. -/
structure ScrapeResult where
  data : List (String × ScrapeValue)
  timestamp : String
  metadata : CaptureMetadata
deriving DecidableEq, Repr

/-- JS object property assignment `m[k] = v`: overwrites the binding in
place if the key exists, otherwise appends it (JS objects hold each key
at most once, preserving first-insertion order). -/
def setKey : List (String × ScrapeValue) → String → ScrapeValue →
    List (String × ScrapeValue)
  | [], k, v => [(k, v)]
  | p :: m, k, v => if p.1 == k then (k, v) :: m else p :: setKey m k v

/-- JS object property read `m[k]`. -/
def lookupKey (m : List (String × ScrapeValue)) (k : String) :
    Option ScrapeValue :=
  (m.find? (fun p => p.1 == k)).map Prod.snd

/-- Context options built by `takeAuthenticatedScreenshot`
(source lines 28-31). -/
def screenshotCtxOpts (o : AuthenticatedBrowserOptions) : ContextOptions :=
  { viewport := some (o.viewport.getD defaultViewport),
    userAgent := some (o.userAgent.getD defaultUserAgent) }

/-- Context options built by `generateAuthenticatedPDF`
(source lines 83-85): viewport only, no user agent. -/
def pdfCtxOpts (o : AuthenticatedBrowserOptions) : ContextOptions :=
  { viewport := some (o.viewport.getD defaultViewport),
    userAgent := none }

/-- Context options built by `testUserFlow` (source lines 143-145):
viewport only, no user agent. -/
def flowCtxOpts (o : AuthenticatedBrowserOptions) : ContextOptions :=
  { viewport := some (o.viewport.getD defaultViewport),
    userAgent := none }

/-- Context options built by `scrapeAuthenticatedContent`
(source line 229): `browser.newContext()` with no options at all. -/
def scrapeCtxOpts : ContextOptions :=
  { viewport := none, userAgent := none }

/-- The part of the `try` block of `takeAuthenticatedScreenshot` after
the header injection: navigate, soft-wait for the marker, capture. -/
def screenshotMain (path : String)
    (options : AuthenticatedBrowserOptions) : M ScreenshotResult := do
  let s ← getS
  goto (s.appBaseUrl ++ path)
  tryCatch (waitForSelector authMarker 5000) (fun _ => warnNoMarker)
  let shot ← screenshotPrim (options.bypassAuth != some false)
  let s2 ← getS
  pure { screenshot := "data:image/png;base64," ++ shot,
         timestamp := modelTimestamp,
         metadata := { url := s2.currentUrl,
                       title := s2.oracle.title,
                       viewportSize := s2.viewport,
                       user := TEST_USER } }

/-- The `try` block body of `takeAuthenticatedScreenshot`. -/
def screenshotBody (path : String)
    (options : AuthenticatedBrowserOptions) : M ScreenshotResult := do
  setExtraHTTPHeaders bypassHeaders
  screenshotMain path options

/-- `takeAuthenticatedScreenshot(path, options)` (source lines 23-75). -/
def takeAuthenticatedScreenshot (path : String)
    (options : AuthenticatedBrowserOptions) : M ScreenshotResult := do
  getPlaywrightBrowser
  newContext (screenshotCtxOpts options)
  newPage
  tryFinally (screenshotBody path options) closeContext

/-- The part of the `try` block of `generateAuthenticatedPDF` after the
header injection. -/
def pdfMain (path : String) : M PDFResult := do
  let s ← getS
  goto (s.appBaseUrl ++ path)
  tryCatch (waitForSelector authMarker 5000) (fun _ => warnNoMarker)
  let b ← pdfPrim "A4" true "1in" "1in" "1in" "1in"
  let s2 ← getS
  pure { pdf := "data:application/pdf;base64," ++ b,
         timestamp := modelTimestamp,
         metadata := { url := s2.currentUrl,
                       title := s2.oracle.title,
                       user := TEST_USER } }

/-- The `try` block body of `generateAuthenticatedPDF`. -/
def pdfBody (path : String) : M PDFResult := do
  setExtraHTTPHeaders bypassHeaders
  pdfMain path

/-- `generateAuthenticatedPDF(path, options)` (source lines 78-129). -/
def generateAuthenticatedPDF (path : String)
    (options : AuthenticatedBrowserOptions) : M PDFResult := do
  getPlaywrightBrowser
  newContext (pdfCtxOpts options)
  newPage
  tryFinally (pdfBody path) closeContext

/-- Step actions of `testUserFlow`. -/
inductive FlowAction where
  | goto | click | fill | screenshot | wait
deriving DecidableEq, Repr

/-- One element of the `flowSteps` array. -/
structure FlowStep where
  action : FlowAction
  selector : Option String := none
  value : Option String := none
  path : Option String := none
  timeout : Option Nat := none
deriving DecidableEq, Repr

/-- Printed name of a step action (as interpolated into the log). -/
def actionName : FlowAction → String
  | .goto => "goto"
  | .click => "click"
  | .fill => "fill"
  | .screenshot => "screenshot"
  | .wait => "wait"

/-- The generic per-step log entry (`Step N: action`, N one-based). -/
def stepHeader (i : Nat) (st : FlowStep) : String :=
  "Step " ++ toString (i + 1) ++ ": " ++ actionName st.action

/-- The `switch (step.action)` dispatch of one loop iteration of
`testUserFlow` (source lines 163-200). -/
def stepRest (st : FlowStep) : M Unit :=
  match st.action with
  | .goto => do
    let s ← getS
    let fullUrl := s.appBaseUrl ++ st.path.getD "/"
    goto fullUrl
    pushLog ("Navigated to " ++ fullUrl)
  | .click =>
    match st.selector with
    | some sel => do
      clickPrim sel
      pushLog ("Clicked " ++ sel)
    | none => pure ()
  | .fill =>
    match st.selector, st.value with
    | some sel, some v => do
      fillPrim sel v
      pushLog ("Filled " ++ sel ++ " with value")
    | _, _ => pure ()
  | .screenshot => do
    let b ← screenshotPrim true
    pushShot ("data:image/png;base64," ++ b)
    pushLog "Screenshot taken"
  | .wait =>
    match st.selector with
    | some sel => do
      waitForSelector sel (st.timeout.getD 30000)
      pushLog ("Waited for " ++ sel)
    | none => do
      waitForTimeout (st.timeout.getD 1000)
      pushLog ("Waited " ++ toString (st.timeout.getD 1000) ++ "ms")

/-- The body of one iteration of the `for` loop of `testUserFlow`
(source lines 160-201); `i` is the zero-based index. -/
def runStep (i : Nat) (st : FlowStep) : M Unit := do
  pushLog (stepHeader i st)
  stepRest st

/-- The whole `for (const [index, step] of flowSteps.entries())` loop. -/
def runSteps : Nat → List FlowStep → M Unit
  | _, [] => pure ()
  | i, st :: rest => do
    runStep i st
    runSteps (i + 1) rest

/-- The part of `testUserFlow` before the `try` block: acquire browser,
open context, open page, declare the fresh accumulator arrays. -/
def flowInit (options : AuthenticatedBrowserOptions) : M Unit := do
  getPlaywrightBrowser
  newContext (flowCtxOpts options)
  newPage
  resetAccums

/-- The part of the `try` block of `testUserFlow` after the header
injection: the step loop and the success result. -/
def flowMain (steps : List FlowStep) : M FlowResult := do
  runSteps 0 steps
  let s ← getS
  pure { success := true, screenshots := s.shots, logs := s.logs,
         timestamp := modelTimestamp }

/-- The `try` block body of `testUserFlow`. -/
def flowBody (steps : List FlowStep) : M FlowResult := do
  setExtraHTTPHeaders bypassHeaders
  flowMain steps

/-- The `catch` block of `testUserFlow`: structured failure result with
the error appended to the logs. -/
def flowCatch (e : String) : M FlowResult := do
  let s ← getS
  pure { success := false, screenshots := s.shots,
         logs := s.logs ++ ["Error: " ++ e], timestamp := modelTimestamp }

/-- `testUserFlow(flowSteps, options)` (source lines 132-220). -/
def testUserFlow (steps : List FlowStep)
    (options : AuthenticatedBrowserOptions) : M FlowResult := do
  flowInit options
  tryFinally (tryCatch (flowBody steps) flowCatch) closeContext

/-- The per-selector extraction loop of `scrapeAuthenticatedContent`
(source lines 254-261), threading the `data` object. -/
def scrapeSelectors : List String → List (String × ScrapeValue) →
    M (List (String × ScrapeValue))
  | [], acc => pure acc
  | sel :: rest, acc => do
    let v ← tryCatch
      (do
        let l ← allTextContents sel
        pure (ScrapeValue.texts l))
      (fun e => pure (ScrapeValue.errorString ("Error: " ++ e)))
    scrapeSelectors rest (setKey acc sel v)

/-- The fixed candidate selectors of `extractUserInfo`. -/
def userInfoSelectors : List String :=
  ["[data-testid=\"user-avatar\"]", "[data-testid=\"user-name\"]",
   "[data-testid=\"energy-display\"]", "[data-testid=\"aura-level\"]"]

/-- `extractUserInfo(page)` (source lines 285-312): best-effort read of
the candidate selectors, skipping invisible or absent ones. -/
def extractUserInfo (o : Oracle) : List (String × String) :=
  userInfoSelectors.foldl
    (fun acc sel =>
      if o.visible sel then acc ++ [(sel, o.textContent sel)] else acc)
    []

/-- The part of the `try` block of `scrapeAuthenticatedContent` after
the header injection: navigate, soft-wait, selector loop, then the
general page info keys written after the requested selectors. -/
def scrapeMain (path : String) (selectors : List String) : M ScrapeResult := do
  let s ← getS
  goto (s.appBaseUrl ++ path)
  tryCatch (waitForSelector authMarker 5000) (fun _ => warnNoMarker)
  let d0 ← scrapeSelectors selectors []
  let s2 ← getS
  let d1 := setKey d0 "title" (ScrapeValue.str s2.oracle.title)
  let d2 := setKey d1 "url" (ScrapeValue.str s2.currentUrl)
  let d3 := setKey d2 "userInfo"
    (ScrapeValue.userInfo (extractUserInfo s2.oracle))
  pure { data := d3, timestamp := modelTimestamp,
         metadata := { url := s2.currentUrl,
                       title := s2.oracle.title,
                       authenticated := some true,
                       user := TEST_USER } }

/-- The `try` block body of `scrapeAuthenticatedContent`. -/
def scrapeBody (path : String) (selectors : List String) : M ScrapeResult := do
  setExtraHTTPHeaders bypassHeaders
  scrapeMain path selectors

/-- `scrapeAuthenticatedContent(path, selectors, options)`
(source lines 223-283).  Note: `options` is accepted but never used. -/
def scrapeAuthenticatedContent (path : String) (selectors : List String)
    (_options : AuthenticatedBrowserOptions) : M ScrapeResult := do
  getPlaywrightBrowser
  newContext scrapeCtxOpts
  newPage
  tryFinally (scrapeBody path selectors) closeContext

/-- A fresh per-call state: one oracle and base URL form the whole
environment of one public operation call. -/
def mkState (o : Oracle) (base : String) : BState :=
  { oracle := o, appBaseUrl := base, calls := 0,
    contextsOpened := 0, contextsClosed := 0, headers := [],
    viewport := none, currentUrl := "", logs := [], shots := [],
    trace := [] }

/-- The generic log headers of a list of steps, starting at index `i`. -/
def headersFrom : Nat → List FlowStep → List String
  | _, [] => []
  | i, st :: rest => stepHeader i st :: headersFrom (i + 1) rest

/-- Every `goto` event in the trace is preceded by a
`setExtraHTTPHeaders` event. -/
def GotoAfterHeaders (t : List BrowserEvent) : Prop :=
  ∀ (n : Nat) (url : String), t[n]? = some (BrowserEvent.goto url) →
    ∃ (m : Nat) (hs : List (String × String)),
      m < n ∧ t[m]? = some (BrowserEvent.setExtraHTTPHeaders hs)

/-- Pure characterisation of the `data` object built by the
per-selector loop: selector number `j` of the list is decided by oracle
call `c + j`. -/
def scrapeValsFrom (o : Oracle) : Nat → List String →
    List (String × ScrapeValue) → List (String × ScrapeValue)
  | _, [], acc => acc
  | c, sel :: rest, acc =>
    scrapeValsFrom o (c + 1) rest
      (setKey acc sel
        (if o.throwsAt c then
          ScrapeValue.errorString ("Error: " ++ ("allTextContents " ++ sel))
        else
          ScrapeValue.texts (o.texts sel)))

/-- State growth: the trace, screenshots and logs only gain entries. -/
def Grows (s s' : BState) : Prop :=
  (∃ L, s'.trace = s.trace ++ L) ∧ (∃ L, s'.shots = s.shots ++ L) ∧
    (∃ L, s'.logs = s.logs ++ L)

/-- A computation whose final state only grows from its start state. -/
def GrowsOn {α : Type} (m : M α) : Prop :=
  ∀ s, Grows s (stOf (m s))

/-- The state reached after the pre-try part of an operation run from a
fresh state: browser acquired, one context with options `ctx` opened,
one page opened (browser calls 0, 1 and 2, all succeeding). -/
def afterPre (o : Oracle) (base : String) (ctx : ContextOptions) : BState :=
  { oracle := o, appBaseUrl := base, calls := 3, contextsOpened := 1,
    contextsClosed := 0, headers := [], viewport := ctx.viewport,
    currentUrl := "about:blank", logs := [], shots := [],
    trace := [BrowserEvent.newContext ctx, BrowserEvent.newPage] }

/-- The value of an ok outcome, or a fallback for a thrown one. -/
def okValue {α : Type} (dflt : α) : Outcome α → α
  | .ok a _ => a
  | .thrown _ _ => dflt

/-- Concrete environment where no browser call ever rejects. -/
def allOkOracle : Oracle :=
  { throwsAt := fun _ => false,
    texts := fun _ => ["t1", "t2"],
    title := "PAGE",
    shotB64 := "SHOT",
    pdfB64 := "PDF",
    visible := fun _ => false,
    textContent := fun _ => "" }

/-- Concrete environment where exactly the k-th browser call rejects. -/
def throwAtOracle (k : Nat) : Oracle :=
  { allOkOracle with throwsAt := fun n => n == k }

/-- Base URL used by the concrete runs. -/
def baseW : String := "http://localhost:5000"

/-- Empty metadata used as an `okValue` fallback. -/
def emptyMetadata : CaptureMetadata := { url := "", title := "", user := "" }

/-- Fallback results used by `okValue` in concrete runs. -/
def dfltFlowResult : FlowResult :=
  { success := false, screenshots := [], logs := [], timestamp := "" }

/-- Fallback scrape result used by `okValue` in concrete runs. -/
def dfltScrapeResult : ScrapeResult :=
  { data := [], timestamp := "", metadata := emptyMetadata }

/-- Fallback PDF result used by `okValue` in concrete runs. -/
def dfltPDFResult : PDFResult :=
  { pdf := "", timestamp := "", metadata := emptyMetadata }

/-- Concrete flow: navigate, then click a missing element, then take a
screenshot; the click is browser call number 5 and rejects. -/
def c2Steps : List FlowStep :=
  [{ action := FlowAction.goto },
   { action := FlowAction.click, selector := some "#missing" },
   { action := FlowAction.screenshot }]

/-- The oracle of the concrete failing flow: call 5 (the click) rejects. -/
def c2Oracle : Oracle := throwAtOracle 5

/-- State after the pre-try part of the concrete failing flow. -/
def c2S1 : BState := stOf (flowInit {} (mkState c2Oracle baseW))

/-- State after the header injection of the concrete failing flow. -/
def c2S1h : BState := stOf (setExtraHTTPHeaders bypassHeaders c2S1)

/-- State after step 1 (the goto) of the concrete failing flow. -/
def c2S2 : BState := stOf (runSteps 0 (c2Steps.take 1) c2S1h)

/-- State at the throw of step 2 (the click) of the concrete flow. -/
def c2S3 : BState := stOf (runStep 1 { action := FlowAction.click, selector := some "#missing" } c2S2)

/-- A click step with no selector (other fields arbitrary). -/
def clickNoSelStep (v p : Option String) (t : Option Nat) : FlowStep :=
  { action := FlowAction.click, selector := none, value := v, path := p,
    timeout := t }

/-- Concrete one-step flow whose only step is a click with no selector. -/
def c3Step : FlowStep := { action := FlowAction.click }

/-- The concrete run of the one-step click-without-selector flow. -/
def c3Out : Outcome FlowResult :=
  testUserFlow [c3Step] {} (mkState allOkOracle baseW)

/-- Result of the one-step click-without-selector flow. -/
def c3R : FlowResult := okValue dfltFlowResult c3Out

/-- Final state of the one-step click-without-selector flow. -/
def c3S : BState := stOf c3Out

/-- Oracle for the concrete scrape with a failing second selector: call
7 is `allTextContents` of the second requested selector. -/
def c6Oracle : Oracle := throwAtOracle 7

/-- The concrete scrape run with one good and one failing selector. -/
def c6Out : Outcome ScrapeResult :=
  scrapeAuthenticatedContent "/feed" [".post-title", ".nonexistent"] {}
    (mkState c6Oracle baseW)

/-- Data object of the concrete two-selector scrape. -/
def c6Data : List (String × ScrapeValue) := (okValue dfltScrapeResult c6Out).data

/-- The concrete scrape run that requests the selector named title. -/
def c10Out : Outcome ScrapeResult :=
  scrapeAuthenticatedContent "/feed" ["title"] {} (mkState allOkOracle baseW)

/-- Data object of the scrape that requested the selector named title. -/
def c10Data : List (String × ScrapeValue) :=
  (okValue dfltScrapeResult c10Out).data

/-- State after a successful header injection on a fresh state. -/
def c7S1 : BState :=
  stOf (setExtraHTTPHeaders bypassHeaders (mkState allOkOracle baseW))

/-- State after applying the header injection twice on a fresh state. -/
def c7S2 : BState := stOf (setExtraHTTPHeaders bypassHeaders c7S1)

end BrowserlessAuth

namespace BrowserlessAuth

theorem bind_def {α β : Type} (m : M α) (f : α → M β) (s : BState) :
    (m >>= f) s =
      match m s with
      | .ok a s' => f a s'
      | .thrown e s' => .thrown e s' := rfl

theorem pure_def {α : Type} (a : α) (s : BState) :
    (pure a : M α) s = .ok a s := rfl

theorem grows_mk {s s' : BState} (a b c : List _)
    (h1 : s'.trace = s.trace ++ a) (h2 : s'.shots = s.shots ++ b)
    (h3 : s'.logs = s.logs ++ c) : Grows s s' :=
  ⟨⟨a, h1⟩, ⟨b, h2⟩, ⟨c, h3⟩⟩

theorem grows_rfl (s : BState) : Grows s s :=
  grows_mk [] [] [] (by simp) (by simp) (by simp)

theorem grows_trans {s t u : BState} (h1 : Grows s t) (h2 : Grows t u) :
    Grows s u := by
  obtain ⟨⟨a, ha⟩, ⟨b, hb⟩, ⟨c, hc⟩⟩ := h1
  obtain ⟨⟨d, hd⟩, ⟨e, he⟩, ⟨f, hf⟩⟩ := h2
  exact grows_mk (a ++ d) (b ++ e) (c ++ f) (by simp [hd, ha])
    (by simp [he, hb]) (by simp [hf, hc])

theorem growsOn_pure {α : Type} (a : α) : GrowsOn (pure a : M α) :=
  fun s => grows_rfl s

theorem growsOn_bind {α β : Type} {m : M α} {f : α → M β}
    (hm : GrowsOn m) (hf : ∀ a, GrowsOn (f a)) : GrowsOn (m >>= f) := by
  intro s
  have h0 := hm s
  rw [bind_def]
  cases h : m s with
  | ok a s' =>
    rw [h] at h0
    exact grows_trans h0 (hf a s')
  | thrown e s' =>
    rw [h] at h0
    exact h0

theorem growsOn_tryCatch {α : Type} {m : M α} {h : String → M α}
    (hm : GrowsOn m) (hh : ∀ e, GrowsOn (h e)) : GrowsOn (tryCatch m h) := by
  intro s
  have h0 := hm s
  unfold tryCatch
  cases hc : m s with
  | ok a s' =>
    rw [hc] at h0
    exact h0
  | thrown e s' =>
    rw [hc] at h0
    exact grows_trans h0 (hh e s')

theorem stOf_finish {α : Type} (fin : M Unit) (out : Outcome α) :
    stOf (finish fin out) = stOf (fin (stOf out)) := by
  cases out with
  | ok a s' =>
    cases h : fin s' <;> simp [finish, stOf, h]
  | thrown e s' =>
    cases h : fin s' <;> simp [finish, stOf, h]

theorem growsOn_tryFinally {α : Type} {m : M α} {fin : M Unit}
    (hm : GrowsOn m) (hf : GrowsOn fin) : GrowsOn (tryFinally m fin) := by
  intro s
  have h0 := hm s
  have h1 := hf (stOf (m s))
  unfold tryFinally
  rw [stOf_finish]
  exact grows_trans h0 h1

theorem growsOn_getS : GrowsOn getS := fun s => grows_rfl s

theorem growsOn_getPlaywrightBrowser : GrowsOn getPlaywrightBrowser := by
  intro s
  unfold getPlaywrightBrowser
  cases hb : s.oracle.throwsAt s.calls <;> simp [hb] <;>
    exact grows_mk [] [] [] (List.append_nil _).symm (List.append_nil _).symm
      (List.append_nil _).symm

theorem growsOn_newContext (opts : ContextOptions) :
    GrowsOn (newContext opts) := by
  intro s
  unfold newContext
  cases hb : s.oracle.throwsAt s.calls <;> simp [hb]
  · exact grows_mk _ [] [] rfl (List.append_nil _).symm
      (List.append_nil _).symm
  · exact grows_mk [] [] [] (List.append_nil _).symm
      (List.append_nil _).symm (List.append_nil _).symm

theorem growsOn_newPage : GrowsOn newPage := by
  intro s
  unfold newPage
  cases hb : s.oracle.throwsAt s.calls <;> simp [hb]
  · exact grows_mk _ [] [] rfl (List.append_nil _).symm
      (List.append_nil _).symm
  · exact grows_mk [] [] [] (List.append_nil _).symm
      (List.append_nil _).symm (List.append_nil _).symm

theorem growsOn_setExtraHTTPHeaders (hs : List (String × String)) :
    GrowsOn (setExtraHTTPHeaders hs) := by
  intro s
  unfold setExtraHTTPHeaders
  cases hb : s.oracle.throwsAt s.calls <;> simp [hb]
  · exact grows_mk _ [] [] rfl (List.append_nil _).symm
      (List.append_nil _).symm
  · exact grows_mk [] [] [] (List.append_nil _).symm
      (List.append_nil _).symm (List.append_nil _).symm

theorem growsOn_goto (url : String) : GrowsOn (goto url) := by
  intro s
  unfold goto
  cases hb : s.oracle.throwsAt s.calls <;> simp [hb]
  · exact grows_mk _ [] [] rfl (List.append_nil _).symm
      (List.append_nil _).symm
  · exact grows_mk [] [] [] (List.append_nil _).symm
      (List.append_nil _).symm (List.append_nil _).symm

theorem growsOn_waitForSelector (sel : String) (t : Nat) :
    GrowsOn (waitForSelector sel t) := by
  intro s
  unfold waitForSelector
  cases hb : s.oracle.throwsAt s.calls <;> simp [hb]
  · exact grows_mk _ [] [] rfl (List.append_nil _).symm
      (List.append_nil _).symm
  · exact grows_mk [] [] [] (List.append_nil _).symm
      (List.append_nil _).symm (List.append_nil _).symm

theorem growsOn_warnNoMarker : GrowsOn warnNoMarker := by
  intro s
  exact grows_mk [BrowserEvent.warn] [] [] rfl (List.append_nil _).symm
    (List.append_nil _).symm

theorem growsOn_screenshotPrim (fullPage : Bool) :
    GrowsOn (screenshotPrim fullPage) := by
  intro s
  unfold screenshotPrim
  cases hb : s.oracle.throwsAt s.calls <;> simp [hb]
  · exact grows_mk _ [] [] rfl (List.append_nil _).symm
      (List.append_nil _).symm
  · exact grows_mk [] [] [] (List.append_nil _).symm
      (List.append_nil _).symm (List.append_nil _).symm

theorem growsOn_pdfPrim (format : String) (pb : Bool)
    (mt mr mb ml : String) : GrowsOn (pdfPrim format pb mt mr mb ml) := by
  intro s
  unfold pdfPrim
  cases hb : s.oracle.throwsAt s.calls <;> simp [hb]
  · exact grows_mk _ [] [] rfl (List.append_nil _).symm
      (List.append_nil _).symm
  · exact grows_mk [] [] [] (List.append_nil _).symm
      (List.append_nil _).symm (List.append_nil _).symm

theorem growsOn_clickPrim (sel : String) : GrowsOn (clickPrim sel) := by
  intro s
  unfold clickPrim
  cases hb : s.oracle.throwsAt s.calls <;> simp [hb]
  · exact grows_mk _ [] [] rfl (List.append_nil _).symm
      (List.append_nil _).symm
  · exact grows_mk [] [] [] (List.append_nil _).symm
      (List.append_nil _).symm (List.append_nil _).symm

theorem growsOn_fillPrim (sel v : String) : GrowsOn (fillPrim sel v) := by
  intro s
  unfold fillPrim
  cases hb : s.oracle.throwsAt s.calls <;> simp [hb]
  · exact grows_mk _ [] [] rfl (List.append_nil _).symm
      (List.append_nil _).symm
  · exact grows_mk [] [] [] (List.append_nil _).symm
      (List.append_nil _).symm (List.append_nil _).symm

theorem growsOn_waitForTimeout (ms : Nat) : GrowsOn (waitForTimeout ms) := by
  intro s
  unfold waitForTimeout
  cases hb : s.oracle.throwsAt s.calls <;> simp [hb]
  · exact grows_mk _ [] [] rfl (List.append_nil _).symm
      (List.append_nil _).symm
  · exact grows_mk [] [] [] (List.append_nil _).symm
      (List.append_nil _).symm (List.append_nil _).symm

theorem growsOn_allTextContents (sel : String) :
    GrowsOn (allTextContents sel) := by
  intro s
  unfold allTextContents
  cases hb : s.oracle.throwsAt s.calls <;> simp [hb]
  · exact grows_mk _ [] [] rfl (List.append_nil _).symm
      (List.append_nil _).symm
  · exact grows_mk [] [] [] (List.append_nil _).symm
      (List.append_nil _).symm (List.append_nil _).symm

theorem growsOn_closeContext : GrowsOn closeContext := by
  intro s
  exact grows_mk [BrowserEvent.closeContext] [] [] rfl
    (List.append_nil _).symm (List.append_nil _).symm

theorem growsOn_pushLog (l : String) : GrowsOn (pushLog l) := by
  intro s
  exact grows_mk [] [] [l] (List.append_nil _).symm
    (List.append_nil _).symm rfl

theorem growsOn_pushShot (x : String) : GrowsOn (pushShot x) := by
  intro s
  exact grows_mk [] [x] [] (List.append_nil _).symm rfl
    (List.append_nil _).symm

theorem growsOn_stepRest (st : FlowStep) : GrowsOn (stepRest st) := by
  unfold stepRest
  cases st.action
  · exact growsOn_bind growsOn_getS fun s =>
      growsOn_bind (growsOn_goto _) fun _ => growsOn_pushLog _
  · cases st.selector
    · exact growsOn_pure _
    · exact growsOn_bind (growsOn_clickPrim _) fun _ => growsOn_pushLog _
  · cases st.selector <;> cases st.value
    · exact growsOn_pure _
    · exact growsOn_pure _
    · exact growsOn_pure _
    · exact growsOn_bind (growsOn_fillPrim _ _) fun _ => growsOn_pushLog _
  · exact growsOn_bind (growsOn_screenshotPrim _) fun b =>
      growsOn_bind (growsOn_pushShot _) fun _ => growsOn_pushLog _
  · cases st.selector
    · exact growsOn_bind (growsOn_waitForTimeout _) fun _ =>
        growsOn_pushLog _
    · exact growsOn_bind (growsOn_waitForSelector _ _) fun _ =>
        growsOn_pushLog _

theorem growsOn_runStep (i : Nat) (st : FlowStep) :
    GrowsOn (runStep i st) := by
  unfold runStep
  exact growsOn_bind (growsOn_pushLog _) fun _ => growsOn_stepRest st

theorem growsOn_runSteps (i : Nat) (stps : List FlowStep) :
    GrowsOn (runSteps i stps) := by
  induction stps generalizing i with
  | nil => exact growsOn_pure _
  | cons st rest ih =>
    exact growsOn_bind (growsOn_runStep _ _) fun _ => ih _

theorem growsOn_scrapeSelectors (sels : List String)
    (acc : List (String × ScrapeValue)) :
    GrowsOn (scrapeSelectors sels acc) := by
  induction sels generalizing acc with
  | nil => exact growsOn_pure _
  | cons sel rest ih =>
    exact growsOn_bind
      (growsOn_tryCatch
        (growsOn_bind (growsOn_allTextContents _) fun _ => growsOn_pure _)
        (fun _ => growsOn_pure _))
      fun v => ih _

theorem growsOn_screenshotMain (path : String)
    (options : AuthenticatedBrowserOptions) :
    GrowsOn (screenshotMain path options) := by
  unfold screenshotMain
  exact growsOn_bind growsOn_getS fun s =>
    growsOn_bind (growsOn_goto _) fun _ =>
      growsOn_bind
        (growsOn_tryCatch (growsOn_waitForSelector _ _)
          (fun _ => growsOn_warnNoMarker))
        fun _ =>
          growsOn_bind (growsOn_screenshotPrim _) fun shot =>
            growsOn_bind growsOn_getS fun s2 => growsOn_pure _

theorem growsOn_screenshotBody (path : String)
    (options : AuthenticatedBrowserOptions) :
    GrowsOn (screenshotBody path options) := by
  unfold screenshotBody
  exact growsOn_bind (growsOn_setExtraHTTPHeaders _) fun _ =>
    growsOn_screenshotMain path options

theorem growsOn_pdfMain (path : String) : GrowsOn (pdfMain path) := by
  unfold pdfMain
  exact growsOn_bind growsOn_getS fun s =>
    growsOn_bind (growsOn_goto _) fun _ =>
      growsOn_bind
        (growsOn_tryCatch (growsOn_waitForSelector _ _)
          (fun _ => growsOn_warnNoMarker))
        fun _ =>
          growsOn_bind (growsOn_pdfPrim _ _ _ _ _ _) fun b =>
            growsOn_bind growsOn_getS fun s2 => growsOn_pure _

theorem growsOn_pdfBody (path : String) : GrowsOn (pdfBody path) := by
  unfold pdfBody
  exact growsOn_bind (growsOn_setExtraHTTPHeaders _) fun _ =>
    growsOn_pdfMain path

theorem growsOn_scrapeMain (path : String) (selectors : List String) :
    GrowsOn (scrapeMain path selectors) := by
  unfold scrapeMain
  exact growsOn_bind growsOn_getS fun s =>
    growsOn_bind (growsOn_goto _) fun _ =>
      growsOn_bind
        (growsOn_tryCatch (growsOn_waitForSelector _ _)
          (fun _ => growsOn_warnNoMarker))
        fun _ =>
          growsOn_bind (growsOn_scrapeSelectors _ _) fun d0 =>
            growsOn_bind growsOn_getS fun s2 => growsOn_pure _

theorem growsOn_scrapeBody (path : String) (selectors : List String) :
    GrowsOn (scrapeBody path selectors) := by
  unfold scrapeBody
  exact growsOn_bind (growsOn_setExtraHTTPHeaders _) fun _ =>
    growsOn_scrapeMain path selectors

theorem growsOn_flowMain (steps : List FlowStep) :
    GrowsOn (flowMain steps) := by
  unfold flowMain
  exact growsOn_bind (growsOn_runSteps _ _) fun _ =>
    growsOn_bind growsOn_getS fun s => growsOn_pure _

theorem growsOn_flowBody (steps : List FlowStep) :
    GrowsOn (flowBody steps) := by
  unfold flowBody
  exact growsOn_bind (growsOn_setExtraHTTPHeaders _) fun _ =>
    growsOn_flowMain steps

theorem growsOn_flowCatch (e : String) : GrowsOn (flowCatch e) := by
  unfold flowCatch
  exact growsOn_bind growsOn_getS fun s => growsOn_pure _

theorem runStep_logs (i : Nat) (st : FlowStep) (s : BState) :
    ∃ L, (stOf (runStep i st s)).logs =
      s.logs ++ (stepHeader i st :: L) := by
  obtain ⟨-, -, ⟨L, hL⟩⟩ :=
    growsOn_stepRest st { s with logs := s.logs ++ [stepHeader i st] }
  refine ⟨L, ?_⟩
  show (stOf (stepRest st { s with logs := s.logs ++ [stepHeader i st] })).logs = _
  rw [hL]
  simp

theorem runSteps_ok_logs (stps : List FlowStep) :
    ∀ i s s', runSteps i stps s = Outcome.ok () s' →
      ∃ L, s'.logs = s.logs ++ L ∧
        List.Sublist (headersFrom i stps) L := by
  induction stps with
  | nil =>
    intro i s s' h
    simp only [runSteps, pure_def] at h
    cases h
    exact ⟨[], by simp, by simp [headersFrom]⟩
  | cons st rest ih =>
    intro i s s' h
    simp only [runSteps, bind_def] at h
    cases hc : runStep i st s with
    | thrown e smid =>
      rw [hc] at h
      cases h
    | ok a smid =>
      rw [hc] at h
      obtain ⟨L2, hL2, hsub2⟩ := ih (i + 1) smid s' h
      obtain ⟨L1, hL1⟩ := runStep_logs i st s
      rw [hc] at hL1
      simp only [stOf] at hL1
      refine ⟨stepHeader i st :: (L1 ++ L2), ?_, ?_⟩
      · rw [hL2, hL1]
        simp
      · simp only [headersFrom]
        exact List.Sublist.cons₂ _
          ((hsub2.trans (List.sublist_append_right L1 L2)))

theorem runSteps_thrown_logs (stps : List FlowStep) :
    ∀ i s s' e, runSteps i stps s = Outcome.thrown e s' →
      ∃ L k, s'.logs = s.logs ++ L ∧ k < stps.length ∧
        List.Sublist (headersFrom i (stps.take (k + 1))) L := by
  induction stps with
  | nil =>
    intro i s s' e h
    simp only [runSteps, pure_def] at h
    cases h
  | cons st rest ih =>
    intro i s s' e h
    simp only [runSteps, bind_def] at h
    cases hc : runStep i st s with
    | thrown e2 smid =>
      rw [hc] at h
      cases h
      obtain ⟨L1, hL1⟩ := runStep_logs i st s
      rw [hc] at hL1
      simp only [stOf] at hL1
      refine ⟨stepHeader i st :: L1, 0, hL1, by simp, ?_⟩
      simp only [List.take, headersFrom]
      exact List.Sublist.cons₂ _ (List.nil_sublist L1)
    | ok a smid =>
      rw [hc] at h
      obtain ⟨L2, k2, hL2, hk2, hsub2⟩ := ih (i + 1) smid s' e h
      obtain ⟨L1, hL1⟩ := runStep_logs i st s
      rw [hc] at hL1
      simp only [stOf] at hL1
      refine ⟨stepHeader i st :: (L1 ++ L2), k2 + 1, ?_, by simpa using Nat.succ_lt_succ hk2, ?_⟩
      · rw [hL2, hL1]
        simp
      · simp only [List.take, headersFrom]
        exact List.Sublist.cons₂ _
          ((hsub2.trans (List.sublist_append_right L1 L2)))

theorem bind_assoc_M {α β γ : Type} (m : M α) (f : α → M β) (g : β → M γ)
    (s : BState) : ((m >>= f) >>= g) s = (m >>= fun a => f a >>= g) s := by
  cases h : m s <;> simp [bind_def, h]

theorem runSteps_append (a b : List FlowStep) :
    ∀ i s, runSteps i (a ++ b) s =
      ((runSteps i a) >>= fun _ => runSteps (i + a.length) b) s := by
  induction a with
  | nil =>
    intro i s
    simp [runSteps, bind_def, pure_def]
  | cons st a' ih =>
    intro i s
    cases hc : runStep i st s with
    | thrown e s1 =>
      have l : runSteps i ((st :: a') ++ b) s = Outcome.thrown e s1 := by
        show (runStep i st >>= fun _ => runSteps (i + 1) (a' ++ b)) s = _
        rw [bind_def, hc]
      have r : runSteps i (st :: a') s = Outcome.thrown e s1 := by
        show (runStep i st >>= fun _ => runSteps (i + 1) a') s = _
        rw [bind_def, hc]
      rw [l, bind_def, r]
    | ok u s1 =>
      have l : runSteps i ((st :: a') ++ b) s = runSteps (i + 1) (a' ++ b) s1 := by
        show (runStep i st >>= fun _ => runSteps (i + 1) (a' ++ b)) s = _
        rw [bind_def, hc]
      have r : runSteps i (st :: a') s = runSteps (i + 1) a' s1 := by
        show (runStep i st >>= fun _ => runSteps (i + 1) a') s = _
        rw [bind_def, hc]
      rw [l, ih (i + 1) s1, bind_def, bind_def, r]
      have harith : i + 1 + a'.length = i + (st :: a').length := by
        simp only [List.length_cons]
        omega
      rw [harith]

theorem lookupKey_setKey_self (m : List (String × ScrapeValue))
    (k : String) (v : ScrapeValue) :
    lookupKey (setKey m k v) k = some v := by
  induction m with
  | nil => simp [setKey, lookupKey]
  | cons p m' ih =>
    cases hp : p.1 == k with
    | true => simp [setKey, hp, lookupKey]
    | false =>
      simp only [setKey, hp, Bool.false_eq_true, if_false]
      simpa [lookupKey, List.find?, hp] using ih

theorem lookupKey_setKey_other (m : List (String × ScrapeValue))
    (k k' : String) (v : ScrapeValue) (hne : k' ≠ k) :
    lookupKey (setKey m k v) k' = lookupKey m k' := by
  induction m with
  | nil =>
    simp [setKey, lookupKey, List.find?,
      show (k == k') = false by simp [Ne.symm hne]]
  | cons p m' ih =>
    cases hp : p.1 == k with
    | true =>
      have hpk : p.1 = k := by simpa using hp
      simp [setKey, hp, lookupKey, List.find?, hne, hpk,
        show (k == k') = false by simp [Ne.symm hne],
        show (k' == k) = false by simp [hne]]
    | false =>
      cases hq : p.1 == k' with
      | true => simp [setKey, hp, lookupKey, List.find?, hq]
      | false =>
        simp only [setKey, hp, Bool.false_eq_true, if_false]
        simpa [lookupKey, List.find?, hq] using ih

theorem lookupKey_scrapeValsFrom_not_mem (o : Oracle) (rest : List String) :
    ∀ c acc k, k ∉ rest →
      lookupKey (scrapeValsFrom o c rest acc) k = lookupKey acc k := by
  induction rest with
  | nil => intro c acc k _; rfl
  | cons sel r ih =>
    intro c acc k hk
    have hk1 : k ≠ sel := fun h => hk (h ▸ List.mem_cons_self sel r)
    have hk2 : k ∉ r := fun h => hk (List.mem_cons_of_mem sel h)
    simp only [scrapeValsFrom]
    rw [ih _ _ _ hk2, lookupKey_setKey_other _ _ _ _ hk1]

theorem lookupKey_scrapeValsFrom (o : Oracle) (sels : List String) :
    ∀ c acc (j : Nat) (hj : j < sels.length), sels.Nodup →
      lookupKey (scrapeValsFrom o c sels acc) (sels.get ⟨j, hj⟩) =
        some (if o.throwsAt (c + j) then
          ScrapeValue.errorString
            ("Error: " ++ ("allTextContents " ++ sels.get ⟨j, hj⟩))
        else
          ScrapeValue.texts (o.texts (sels.get ⟨j, hj⟩))) := by
  induction sels with
  | nil => intro c acc j hj _; exact absurd hj (by simp)
  | cons sel rest ih =>
    intro c acc j hj hnd
    have hsel : sel ∉ rest := (List.nodup_cons.mp hnd).1
    have hndr : rest.Nodup := (List.nodup_cons.mp hnd).2
    cases j with
    | zero =>
      simp only [List.get, scrapeValsFrom, Nat.add_zero]
      rw [lookupKey_scrapeValsFrom_not_mem o rest _ _ _ hsel,
        lookupKey_setKey_self]
    | succ j' =>
      have hj' : j' < rest.length := by simpa using hj
      have harith : c + 1 + j' = c + (j' + 1) := by omega
      simpa only [List.get, scrapeValsFrom, harith] using
        ih (c + 1) _ j' hj' hndr

theorem scrapeSelectors_run (sels : List String) :
    ∀ acc s, ∃ s',
      scrapeSelectors sels acc s =
        Outcome.ok (scrapeValsFrom s.oracle s.calls sels acc) s' ∧
      s'.oracle = s.oracle ∧ s'.currentUrl = s.currentUrl ∧
      s'.viewport = s.viewport ∧
      ∃ L, s'.trace = s.trace ++ L := by
  induction sels with
  | nil =>
    intro acc s
    exact ⟨s, rfl, rfl, rfl, rfl, ⟨[], by simp⟩⟩
  | cons sel rest ih =>
    intro acc s
    cases hb : s.oracle.throwsAt s.calls with
    | false =>
      have hstep : scrapeSelectors (sel :: rest) acc s =
          scrapeSelectors rest
            (setKey acc sel (ScrapeValue.texts (s.oracle.texts sel)))
            { s with calls := s.calls + 1,
                     trace := s.trace ++ [BrowserEvent.allTextContents sel] } := by
        show ((tryCatch
            (allTextContents sel >>= fun l => pure (ScrapeValue.texts l))
            (fun e => pure (ScrapeValue.errorString ("Error: " ++ e)))) >>=
          fun v => scrapeSelectors rest (setKey acc sel v)) s = _
        rw [bind_def]
        simp [tryCatch, allTextContents, hb, bind_def, pure_def]
      obtain ⟨s', h1, h2, h3, h4, L, hL⟩ := ih _
        { s with calls := s.calls + 1,
                 trace := s.trace ++ [BrowserEvent.allTextContents sel] }
      refine ⟨s', ?_, h2, h3, h4, ⟨BrowserEvent.allTextContents sel :: L, ?_⟩⟩
      · rw [hstep, h1]
        simp only [scrapeValsFrom, hb, Bool.false_eq_true, if_false]
      · rw [hL]
        simp
    | true =>
      have hstep : scrapeSelectors (sel :: rest) acc s =
          scrapeSelectors rest
            (setKey acc sel (ScrapeValue.errorString
              ("Error: " ++ ("allTextContents " ++ sel))))
            { s with calls := s.calls + 1 } := by
        show ((tryCatch
            (allTextContents sel >>= fun l => pure (ScrapeValue.texts l))
            (fun e => pure (ScrapeValue.errorString ("Error: " ++ e)))) >>=
          fun v => scrapeSelectors rest (setKey acc sel v)) s = _
        rw [bind_def]
        simp [tryCatch, allTextContents, hb, bind_def, pure_def]
      obtain ⟨s', h1, h2, h3, h4, L, hL⟩ := ih _ { s with calls := s.calls + 1 }
      refine ⟨s', ?_, h2, h3, h4, ⟨L, hL⟩⟩
      rw [hstep, h1]
      simp only [scrapeValsFrom, hb, if_true]

theorem bind_ok {α β : Type} {m : M α} {f : α → M β} {s s' : BState}
    {a : α} (h : m s = Outcome.ok a s') : (m >>= f) s = f a s' := by
  rw [bind_def, h]

theorem bind_thrown {α β : Type} {m : M α} {f : α → M β} {s s' : BState}
    {e : String} (h : m s = Outcome.thrown e s') :
    (m >>= f) s = Outcome.thrown e s' := by
  rw [bind_def, h]

theorem tryCatch_ok {α : Type} {m : M α} {hnd : String → M α}
    {s s' : BState} {a : α} (h : m s = Outcome.ok a s') :
    tryCatch m hnd s = Outcome.ok a s' := by
  unfold tryCatch
  rw [h]

theorem tryCatch_thrown {α : Type} {m : M α} {hnd : String → M α}
    {s s' : BState} {e : String} (h : m s = Outcome.thrown e s') :
    tryCatch m hnd s = hnd e s' := by
  unfold tryCatch
  rw [h]

theorem tryFinally_close_ok {α : Type} {m : M α} {s s' : BState} {a : α}
    (h : m s = Outcome.ok a s') :
    tryFinally m closeContext s = Outcome.ok a
      { s' with contextsClosed := s'.contextsClosed + 1,
                trace := s'.trace ++ [BrowserEvent.closeContext] } := by
  unfold tryFinally
  rw [h]
  rfl

theorem tryFinally_close_thrown {α : Type} {m : M α} {s s' : BState}
    {e : String} (h : m s = Outcome.thrown e s') :
    tryFinally m closeContext s = Outcome.thrown e
      { s' with contextsClosed := s'.contextsClosed + 1,
                trace := s'.trace ++ [BrowserEvent.closeContext] } := by
  unfold tryFinally
  rw [h]
  rfl

theorem mem_trace_of_grows {s s' : BState} (h : Grows s s')
    {ev : BrowserEvent} (hm : ev ∈ s.trace) : ev ∈ s'.trace := by
  obtain ⟨⟨L, hL⟩, -, -⟩ := h
  rw [hL]
  exact List.mem_append_left _ hm

theorem shot_pre_reduce (o : Oracle) (base path : String)
    (opts : AuthenticatedBrowserOptions)
    (h0 : o.throwsAt 0 = false) (h1 : o.throwsAt 1 = false)
    (h2 : o.throwsAt 2 = false) :
    takeAuthenticatedScreenshot path opts (mkState o base) =
      tryFinally (screenshotBody path opts) closeContext
        (afterPre o base (screenshotCtxOpts opts)) := by
  simp only [takeAuthenticatedScreenshot, mkState, afterPre,
    getPlaywrightBrowser, newContext, newPage, bind_def, h0, h1, h2,
    Nat.zero_add, Nat.reduceAdd, Bool.false_eq_true, if_false, if_true]
  rfl

theorem pdf_pre_reduce (o : Oracle) (base path : String)
    (opts : AuthenticatedBrowserOptions)
    (h0 : o.throwsAt 0 = false) (h1 : o.throwsAt 1 = false)
    (h2 : o.throwsAt 2 = false) :
    generateAuthenticatedPDF path opts (mkState o base) =
      tryFinally (pdfBody path) closeContext
        (afterPre o base (pdfCtxOpts opts)) := by
  simp only [generateAuthenticatedPDF, mkState, afterPre,
    getPlaywrightBrowser, newContext, newPage, bind_def, h0, h1, h2,
    Nat.zero_add, Nat.reduceAdd, Bool.false_eq_true, if_false, if_true]
  rfl

theorem flow_pre_reduce (o : Oracle) (base : String)
    (steps : List FlowStep) (opts : AuthenticatedBrowserOptions)
    (h0 : o.throwsAt 0 = false) (h1 : o.throwsAt 1 = false)
    (h2 : o.throwsAt 2 = false) :
    testUserFlow steps opts (mkState o base) =
      tryFinally (tryCatch (flowBody steps) flowCatch) closeContext
        (afterPre o base (flowCtxOpts opts)) := by
  simp only [testUserFlow, flowInit, mkState, afterPre,
    getPlaywrightBrowser, newContext, newPage, resetAccums, bind_def,
    h0, h1, h2, Nat.zero_add, Nat.reduceAdd, Bool.false_eq_true,
    if_false, if_true]
  rfl

theorem scrape_pre_reduce (o : Oracle) (base path : String)
    (selectors : List String) (opts : AuthenticatedBrowserOptions)
    (h0 : o.throwsAt 0 = false) (h1 : o.throwsAt 1 = false)
    (h2 : o.throwsAt 2 = false) :
    scrapeAuthenticatedContent path selectors opts (mkState o base) =
      tryFinally (scrapeBody path selectors) closeContext
        (afterPre o base scrapeCtxOpts) := by
  simp only [scrapeAuthenticatedContent, mkState, afterPre,
    getPlaywrightBrowser, newContext, newPage, bind_def, h0, h1, h2,
    Nat.zero_add, Nat.reduceAdd, Bool.false_eq_true, if_false, if_true]
  rfl

/-- Claim C8: whenever its browser calls succeed (navigation and
capture; the readiness wait may succeed or time out),
`generateAuthenticatedPDF` produces the PDF with format A4, printed
backgrounds on and one-inch margins on all four sides, returns the
payload as a data URI with the application/pdf media type, and attaches
metadata carrying the page title and the resolved URL. -/
theorem C8_pdf_format_and_data_uri (o : Oracle) (base path : String)
    (opts : AuthenticatedBrowserOptions)
    (h0 : o.throwsAt 0 = false) (h1 : o.throwsAt 1 = false)
    (h2 : o.throwsAt 2 = false) (h3 : o.throwsAt 3 = false)
    (h4 : o.throwsAt 4 = false) (h6 : o.throwsAt 6 = false) :
    ∃ r s', generateAuthenticatedPDF path opts (mkState o base) =
        Outcome.ok r s' ∧
      r.pdf = "data:application/pdf;base64," ++ o.pdfB64 ∧
      BrowserEvent.pdf "A4" true "1in" "1in" "1in" "1in" ∈ s'.trace ∧
      r.metadata.title = o.title ∧ r.metadata.url = base ++ path := by
  cases h5 : o.throwsAt 5 <;>
  · simp only [generateAuthenticatedPDF, pdfBody, pdfMain, mkState,
      getPlaywrightBrowser, newContext, newPage, setExtraHTTPHeaders,
      goto, waitForSelector, pdfPrim, warnNoMarker, tryCatch, tryFinally,
      finish, closeContext, getS, bind_def, pure_def, h0, h1, h2, h3, h4,
      h5, h6, Nat.zero_add, Nat.reduceAdd, Bool.false_eq_true, if_false,
      if_true]
    exact ⟨_, _, rfl, rfl, by simp, rfl, rfl⟩

/-- Claim C1 (violated by the code): in all four public operations the
call `context.newPage()` is issued before the `try` block is entered,
so when it throws (browser call 2, right after the context was opened
by call 1), the error propagates and the `finally` never runs: the
context was opened exactly once and closed zero times - a leak.  This
theorem evaluates each operation at that failing environment. -/
theorem C1_newPage_throw_leaks_context :
    (∃ s', takeAuthenticatedScreenshot "/" {}
        (mkState (throwAtOracle 2) baseW) = Outcome.thrown "newPage" s' ∧
      s'.contextsOpened = 1 ∧ s'.contextsClosed = 0) ∧
    (∃ s', generateAuthenticatedPDF "/" {}
        (mkState (throwAtOracle 2) baseW) = Outcome.thrown "newPage" s' ∧
      s'.contextsOpened = 1 ∧ s'.contextsClosed = 0) ∧
    (∃ s', testUserFlow [] {}
        (mkState (throwAtOracle 2) baseW) = Outcome.thrown "newPage" s' ∧
      s'.contextsOpened = 1 ∧ s'.contextsClosed = 0) ∧
    (∃ s', scrapeAuthenticatedContent "/" [] {}
        (mkState (throwAtOracle 2) baseW) = Outcome.thrown "newPage" s' ∧
      s'.contextsOpened = 1 ∧ s'.contextsClosed = 0) :=
  ⟨⟨_, rfl, rfl, rfl⟩, ⟨_, rfl, rfl, rfl⟩, ⟨_, rfl, rfl, rfl⟩,
    ⟨_, rfl, rfl, rfl⟩⟩

/-- Claim C9: a click step whose selector field is absent is a silent
no-op: it never consults the environment (so it cannot throw), appends
only the generic step header (whose action name is click) to the logs,
changes nothing else, and the loop continues with the next step. -/
theorem C9_click_without_selector_noop (i : Nat) (v p : Option String)
    (t : Option Nat) (rest : List FlowStep) (s : BState) :
    runStep i (clickNoSelStep v p t) s =
      Outcome.ok ()
        { s with logs := s.logs ++ [stepHeader i (clickNoSelStep v p t)] } ∧
    stepHeader i (clickNoSelStep v p t) =
      "Step " ++ toString (i + 1) ++ ": " ++ actionName FlowAction.click ∧
    actionName FlowAction.click = "click" ∧
    runSteps i (clickNoSelStep v p t :: rest) s =
      runSteps (i + 1) rest
        { s with logs := s.logs ++ [stepHeader i (clickNoSelStep v p t)] } :=
  ⟨rfl, rfl, rfl, rfl⟩

theorem scrapeMain_run (path : String) (selectors : List String)
    (t : BState) (hg : t.oracle.throwsAt t.calls = false) :
    ∃ s', scrapeMain path selectors t = Outcome.ok
      { data := setKey (setKey (setKey
            (scrapeValsFrom t.oracle (t.calls + 2) selectors [])
            "title" (ScrapeValue.str t.oracle.title))
            "url" (ScrapeValue.str (t.appBaseUrl ++ path)))
            "userInfo" (ScrapeValue.userInfo (extractUserInfo t.oracle)),
        timestamp := modelTimestamp,
        metadata := { url := t.appBaseUrl ++ path,
                      title := t.oracle.title,
                      viewportSize := none,
                      authenticated := some true,
                      user := TEST_USER } } s' ∧
      (t.oracle.throwsAt (t.calls + 1) = true →
        BrowserEvent.warn ∈ s'.trace) := by
  cases hb : t.oracle.throwsAt (t.calls + 1) with
  | false =>
    obtain ⟨sq, hq, hqo, hqu, hqv, L, hL⟩ := scrapeSelectors_run selectors []
      { oracle := t.oracle, appBaseUrl := t.appBaseUrl,
        calls := t.calls + 1 + 1, contextsOpened := t.contextsOpened,
        contextsClosed := t.contextsClosed, headers := t.headers,
        viewport := t.viewport, currentUrl := t.appBaseUrl ++ path,
        logs := t.logs, shots := t.shots,
        trace := t.trace ++ [BrowserEvent.goto (t.appBaseUrl ++ path)] ++
          [BrowserEvent.waitForSelector authMarker 5000] }
    refine ⟨sq, ?_, ?_⟩
    · simp only [scrapeMain, goto, tryCatch, waitForSelector,
        warnNoMarker, getS, bind_def, pure_def, hg, hb,
        Bool.false_eq_true, if_false, if_true]
      rw [hq]
      simp only [hqo, hqu]
    · intro hcontra
      exact Bool.noConfusion hcontra
  | true =>
    obtain ⟨sq, hq, hqo, hqu, hqv, L, hL⟩ := scrapeSelectors_run selectors []
      { oracle := t.oracle, appBaseUrl := t.appBaseUrl,
        calls := t.calls + 1 + 1, contextsOpened := t.contextsOpened,
        contextsClosed := t.contextsClosed, headers := t.headers,
        viewport := t.viewport, currentUrl := t.appBaseUrl ++ path,
        logs := t.logs, shots := t.shots,
        trace := t.trace ++ [BrowserEvent.goto (t.appBaseUrl ++ path)] ++
          [BrowserEvent.warn] }
    refine ⟨sq, ?_, fun _ => ?_⟩
    · simp only [scrapeMain, goto, tryCatch, waitForSelector,
        warnNoMarker, getS, bind_def, pure_def, hg, hb,
        Bool.false_eq_true, if_false, if_true]
      rw [hq]
      simp only [hqo, hqu]
    · rw [hL]
      simp

theorem scrapeBody_run (path : String) (selectors : List String)
    (s : BState) (h0 : s.oracle.throwsAt s.calls = false)
    (h1 : s.oracle.throwsAt (s.calls + 1) = false) :
    ∃ s', scrapeBody path selectors s = Outcome.ok
      { data := setKey (setKey (setKey
            (scrapeValsFrom s.oracle (s.calls + 3) selectors [])
            "title" (ScrapeValue.str s.oracle.title))
            "url" (ScrapeValue.str (s.appBaseUrl ++ path)))
            "userInfo" (ScrapeValue.userInfo (extractUserInfo s.oracle)),
        timestamp := modelTimestamp,
        metadata := { url := s.appBaseUrl ++ path,
                      title := s.oracle.title,
                      viewportSize := none,
                      authenticated := some true,
                      user := TEST_USER } } s' ∧
      (s.oracle.throwsAt (s.calls + 2) = true →
        BrowserEvent.warn ∈ s'.trace) := by
  obtain ⟨sq, hsm, hwarn⟩ := scrapeMain_run path selectors
    ({ s with
        calls := s.calls + 1,
        headers := bypassHeaders,
        trace := s.trace ++
          [BrowserEvent.setExtraHTTPHeaders bypassHeaders] })
    h1
  refine ⟨sq, ?_, fun h2 => hwarn h2⟩
  show (setExtraHTTPHeaders bypassHeaders >>=
    fun _ => scrapeMain path selectors) s = _
  rw [bind_def]
  simp only [setExtraHTTPHeaders, h0, Bool.false_eq_true, if_false,
    if_true]
  exact hsm

/-- Claim C5: in each capture operation, when the readiness-marker wait
(browser call 5, selector authMarker, 5000 ms) rejects while the other
calls succeed, the failure is not surfaced: the operation still returns
ok, the warning is logged (warn event in the trace) and the capture is
still produced. -/
theorem C5_marker_timeout_is_soft (o : Oracle) (base path : String)
    (opts : AuthenticatedBrowserOptions) (selectors : List String)
    (h0 : o.throwsAt 0 = false) (h1 : o.throwsAt 1 = false)
    (h2 : o.throwsAt 2 = false) (h3 : o.throwsAt 3 = false)
    (h4 : o.throwsAt 4 = false) (h5 : o.throwsAt 5 = true)
    (h6 : o.throwsAt 6 = false) :
    (∃ r s', takeAuthenticatedScreenshot path opts (mkState o base) =
        Outcome.ok r s' ∧ BrowserEvent.warn ∈ s'.trace ∧
      r.screenshot = "data:image/png;base64," ++ o.shotB64) ∧
    (∃ r s', generateAuthenticatedPDF path opts (mkState o base) =
        Outcome.ok r s' ∧ BrowserEvent.warn ∈ s'.trace ∧
      r.pdf = "data:application/pdf;base64," ++ o.pdfB64) ∧
    (∃ r s', scrapeAuthenticatedContent path selectors opts
        (mkState o base) = Outcome.ok r s' ∧
      BrowserEvent.warn ∈ s'.trace) := by
  refine ⟨?_, ?_, ?_⟩
  · simp only [takeAuthenticatedScreenshot, screenshotBody,
      screenshotMain, mkState, getPlaywrightBrowser, newContext, newPage,
      setExtraHTTPHeaders, goto, waitForSelector, screenshotPrim,
      warnNoMarker, tryCatch, tryFinally, finish, closeContext, getS,
      bind_def, pure_def, h0, h1, h2, h3, h4, h5, h6, Nat.zero_add,
      Nat.reduceAdd, Bool.false_eq_true, if_false, if_true]
    exact ⟨_, _, rfl, by simp, rfl⟩
  · simp only [generateAuthenticatedPDF, pdfBody, pdfMain, mkState,
      getPlaywrightBrowser, newContext, newPage, setExtraHTTPHeaders,
      goto, waitForSelector, pdfPrim, warnNoMarker, tryCatch, tryFinally,
      finish, closeContext, getS, bind_def, pure_def, h0, h1, h2, h3, h4,
      h5, h6, Nat.zero_add, Nat.reduceAdd, Bool.false_eq_true, if_false,
      if_true]
    exact ⟨_, _, rfl, by simp, rfl⟩
  · rw [scrape_pre_reduce o base path selectors opts h0 h1 h2]
    obtain ⟨s', hrun, hwarn⟩ :=
      scrapeBody_run path selectors (afterPre o base scrapeCtxOpts) h3 h4
    exact ⟨_, _, tryFinally_close_ok hrun,
      List.mem_append_left _ (hwarn h5)⟩

/-- Witness for C5 at the concrete environment where exactly browser
call 5 (the readiness wait) rejects. -/
theorem C5_witness :
    BrowserEvent.warn ∈ (stOf (takeAuthenticatedScreenshot "/profile" {}
      (mkState (throwAtOracle 5) baseW))).trace ∧
    BrowserEvent.warn ∈ (stOf (scrapeAuthenticatedContent "/profile"
      [".post-title"] {} (mkState (throwAtOracle 5) baseW))).trace := by
  obtain ⟨⟨r1, s1, hr1, hw1, -⟩, -, ⟨r3, s3, hr3, hw3⟩⟩ :=
    C5_marker_timeout_is_soft (throwAtOracle 5) baseW "/profile" {}
      [".post-title"] rfl rfl rfl rfl rfl rfl rfl
  constructor
  · rw [hr1]
    exact hw1
  · rw [hr3]
    exact hw3

theorem gotoAfterHeaders_of_no_goto (t : List BrowserEvent)
    (h : ∀ url, BrowserEvent.goto url ∉ t) : GotoAfterHeaders t := by
  intro n url hn
  exact absurd (List.getElem?_mem hn) (h url)

theorem gotoAfterHeaders_cons3 (a b : BrowserEvent)
    (hs : List (String × String)) (L : List BrowserEvent)
    (ha : ∀ url, a ≠ BrowserEvent.goto url)
    (hb : ∀ url, b ≠ BrowserEvent.goto url) :
    GotoAfterHeaders (a :: b :: BrowserEvent.setExtraHTTPHeaders hs :: L) := by
  intro n url h
  match n with
  | 0 => exact absurd (Option.some.inj h) (ha url)
  | 1 => exact absurd (Option.some.inj h) (hb url)
  | 2 =>
    rw [List.getElem?_cons_succ, List.getElem?_cons_succ,
      List.getElem?_cons_zero] at h
    exact BrowserEvent.noConfusion (Option.some.inj h)
  | (m + 3) =>
    refine ⟨2, hs, by omega, ?_⟩
    rw [List.getElem?_cons_succ, List.getElem?_cons_succ,
      List.getElem?_cons_zero]

theorem gotoAfterHeaders_close_of {α : Type} (out : Outcome α)
    (a b : BrowserEvent) (hs : List (String × String))
    (ha : ∀ url, a ≠ BrowserEvent.goto url)
    (hb : ∀ url, b ≠ BrowserEvent.goto url)
    (htrace : ∃ L, (stOf out).trace =
      a :: b :: BrowserEvent.setExtraHTTPHeaders hs :: L) :
    GotoAfterHeaders (stOf (finish closeContext out)).trace := by
  obtain ⟨L, hL⟩ := htrace
  rw [stOf_finish]
  have h2 : (stOf (closeContext (stOf out))).trace =
      (stOf out).trace ++ [BrowserEvent.closeContext] := rfl
  rw [h2, hL]
  exact gotoAfterHeaders_cons3 a b hs (L ++ [BrowserEvent.closeContext])
    ha hb

theorem shotBody_trace_after_headers (path : String)
    (opts : AuthenticatedBrowserOptions) (S : BState)
    (h3 : S.oracle.throwsAt S.calls = false) :
    ∃ L, (stOf (screenshotBody path opts S)).trace = S.trace ++
      [BrowserEvent.setExtraHTTPHeaders bypassHeaders] ++ L := by
  have hb : screenshotBody path opts S = screenshotMain path opts
      ({ S with
          calls := S.calls + 1,
          headers := bypassHeaders,
          trace := S.trace ++
            [BrowserEvent.setExtraHTTPHeaders bypassHeaders] }) := by
    show (setExtraHTTPHeaders bypassHeaders >>=
      fun _ => screenshotMain path opts) S = _
    rw [bind_def]
    simp only [setExtraHTTPHeaders, h3, Bool.false_eq_true, if_false,
      if_true]
  rw [hb]
  obtain ⟨⟨L1, hL1⟩, -, -⟩ := growsOn_screenshotMain path opts
    ({ S with
        calls := S.calls + 1,
        headers := bypassHeaders,
        trace := S.trace ++
          [BrowserEvent.setExtraHTTPHeaders bypassHeaders] })
  exact ⟨L1, hL1⟩

theorem flowTry_trace_after_headers (steps : List FlowStep) (S : BState)
    (h3 : S.oracle.throwsAt S.calls = false) :
    ∃ L, (stOf (tryCatch (flowBody steps) flowCatch S)).trace = S.trace ++
      [BrowserEvent.setExtraHTTPHeaders bypassHeaders] ++ L := by
  have hb : flowBody steps S = flowMain steps
      ({ S with
          calls := S.calls + 1,
          headers := bypassHeaders,
          trace := S.trace ++
            [BrowserEvent.setExtraHTTPHeaders bypassHeaders] }) := by
    show (setExtraHTTPHeaders bypassHeaders >>=
      fun _ => flowMain steps) S = _
    rw [bind_def]
    simp only [setExtraHTTPHeaders, h3, Bool.false_eq_true, if_false,
      if_true]
  unfold tryCatch
  rw [hb]
  obtain ⟨⟨L1, hL1⟩, -, -⟩ := growsOn_flowMain steps
    ({ S with
        calls := S.calls + 1,
        headers := bypassHeaders,
        trace := S.trace ++
          [BrowserEvent.setExtraHTTPHeaders bypassHeaders] })
  cases hfm : flowMain steps ({ S with
      calls := S.calls + 1,
      headers := bypassHeaders,
      trace := S.trace ++
        [BrowserEvent.setExtraHTTPHeaders bypassHeaders] }) with
  | ok a s' =>
    rw [hfm] at hL1
    exact ⟨L1, hL1⟩
  | thrown e s' =>
    rw [hfm] at hL1
    obtain ⟨⟨L2, hL2⟩, -, -⟩ := growsOn_flowCatch e s'
    refine ⟨L1 ++ L2, ?_⟩
    rw [hL2]
    simp only [stOf] at hL1
    rw [hL1]
    simp

theorem setExtraHTTPHeaders_accums (hs : List (String × String))
    (s : BState) :
    (stOf (setExtraHTTPHeaders hs s)).logs = s.logs ∧
    (stOf (setExtraHTTPHeaders hs s)).shots = s.shots := by
  unfold setExtraHTTPHeaders
  cases hb : s.oracle.throwsAt s.calls <;> simp [hb, stOf]

theorem flowInit_ok_accums (opts : AuthenticatedBrowserOptions)
    (s s' : BState) (h : flowInit opts s = Outcome.ok () s') :
    s'.logs = [] ∧ s'.shots = [] := by
  cases hb0 : s.oracle.throwsAt s.calls
  case true =>
    simp [flowInit, getPlaywrightBrowser, bind_def, hb0] at h
  case false =>
  cases hb1 : s.oracle.throwsAt (s.calls + 1)
  case true =>
    simp [flowInit, getPlaywrightBrowser, newContext, bind_def, hb0,
      hb1] at h
  case false =>
  cases hb2 : s.oracle.throwsAt (s.calls + 1 + 1)
  case true =>
    simp [flowInit, getPlaywrightBrowser, newContext, newPage, bind_def,
      hb0, hb1, hb2] at h
  case false =>
    simp only [flowInit, getPlaywrightBrowser, newContext, newPage,
      resetAccums, bind_def, hb0, hb1, hb2, Bool.false_eq_true, if_false,
      if_true, Outcome.ok.injEq, true_and] at h
    subst h
    exact ⟨rfl, rfl⟩

/-- Claim C2: when the handler of step k throws while everything before
it succeeded, `testUserFlow` returns (does not re-throw) a structured
FlowResult with success false, whose screenshots are exactly those
collected up to the throw (including every screenshot collected before
step k) and whose final log entry carries the failure detail; nothing
executes after step k except the context close. -/
theorem C2_step_throw_structured_result (o : Oracle) (base : String)
    (opts : AuthenticatedBrowserOptions) (steps : List FlowStep)
    (k : Nat) (e : String) (s1 s1h s2 s3 : BState)
    (hpre : flowInit opts (mkState o base) = Outcome.ok () s1)
    (hhdr : setExtraHTTPHeaders bypassHeaders s1 = Outcome.ok () s1h)
    (hk : k < steps.length)
    (htake : runSteps 0 (steps.take k) s1h = Outcome.ok () s2)
    (hstep : runStep k steps[k] s2 = Outcome.thrown e s3) :
    ∃ s4, testUserFlow steps opts (mkState o base) = Outcome.ok
        { success := false, screenshots := s3.shots,
          logs := s3.logs ++ ["Error: " ++ e],
          timestamp := modelTimestamp } s4 ∧
      s4.trace = s3.trace ++ [BrowserEvent.closeContext] ∧
      ∃ L, s3.shots = s2.shots ++ L := by
  have hlen : (steps.take k).length = k := by
    simp only [List.length_take]
    omega
  have hrs : runSteps 0 steps s1h = Outcome.thrown e s3 := by
    conv_lhs => rw [← List.take_append_drop k steps]
    rw [runSteps_append, bind_ok htake, hlen,
      List.drop_eq_getElem_cons hk]
    simp only [runSteps, Nat.zero_add]
    rw [bind_thrown hstep]
  have hflowMain : flowMain steps s1h = Outcome.thrown e s3 := by
    unfold flowMain
    rw [bind_thrown hrs]
  have hbody : flowBody steps s1 = Outcome.thrown e s3 := by
    unfold flowBody
    rw [bind_ok hhdr]
    exact hflowMain
  have hcatch : tryCatch (flowBody steps) flowCatch s1 = Outcome.ok
      { success := false, screenshots := s3.shots,
        logs := s3.logs ++ ["Error: " ++ e],
        timestamp := modelTimestamp } s3 := by
    rw [tryCatch_thrown hbody]
    rfl
  refine ⟨{ s3 with
      contextsClosed := s3.contextsClosed + 1,
      trace := s3.trace ++ [BrowserEvent.closeContext] }, ?_, rfl, ?_⟩
  · simp only [testUserFlow]
    rw [bind_ok hpre, tryFinally_close_ok hcatch]
  · obtain ⟨-, ⟨L, hL⟩, -⟩ := growsOn_runStep k steps[k] s2
    rw [hstep] at hL
    exact ⟨L, hL⟩

/-- Witness for C2: a concrete three-step flow (goto, click a missing
element, screenshot) where the click (browser call 5) throws; the flow
returns a structured failure result carrying the error text. -/
theorem C2_witness :
    testUserFlow c2Steps {} (mkState c2Oracle baseW) = Outcome.ok
      { success := false, screenshots := c2S3.shots,
        logs := c2S3.logs ++ ["Error: " ++ ("click " ++ "#missing")],
        timestamp := modelTimestamp }
      (stOf (testUserFlow c2Steps {} (mkState c2Oracle baseW))) := by
  obtain ⟨s4, h1, -, -⟩ := C2_step_throw_structured_result c2Oracle baseW
    {} c2Steps 1 ("click " ++ "#missing") c2S1 c2S1h c2S2 c2S3
    rfl rfl (by decide) rfl rfl
  rw [h1]
  rfl

/-- Counterexample to claim C3 as stated: on the all-steps-succeed run
of the one-step flow whose step is a click without selector, the logs
list has exactly the one per-step entry and no additional terminal
entry, so its length is not at least steps attempted plus one. -/
theorem C3_counterexample :
    ∃ r s', testUserFlow [c3Step] {} (mkState allOkOracle baseW) =
        Outcome.ok r s' ∧
      r.success = true ∧ r.logs = ["Step 1: click"] ∧
      ¬ ([c3Step].length + 1 ≤ r.logs.length) := by
  refine ⟨_, _, rfl, rfl, by decide, by decide⟩

/-- Claim C3 as amended: for every flow run that returns a FlowResult,
there is a count k of attempted steps, at most the number of steps,
such that the generic log headers of the first k steps occur in the
logs in step order (so the logs have at least one entry per attempted
step, unreordered); on success every step was attempted; on failure one
additional terminal error entry is appended (and only then); and the
screenshots accumulator of the step loop only ever grows. -/
theorem C3_amended_logs_structure (o : Oracle) (base : String)
    (steps : List FlowStep) (opts : AuthenticatedBrowserOptions)
    (r : FlowResult) (s' : BState)
    (hrun : testUserFlow steps opts (mkState o base) = Outcome.ok r s') :
    (∃ k, k ≤ steps.length ∧
      List.Sublist (headersFrom 0 (steps.take k)) r.logs ∧
      (r.success = true → k = steps.length) ∧
      (r.success = false →
        ∃ e, r.logs.getLast? = some ("Error: " ++ e))) ∧
    (∀ (i : Nat) (stps : List FlowStep) (t : BState),
      ∃ L, (stOf (runSteps i stps t)).shots = t.shots ++ L) := by
  refine ⟨?_, fun i stps t => (growsOn_runSteps i stps t).2.1⟩
  unfold testUserFlow at hrun
  cases hfi : flowInit opts (mkState o base) with
  | thrown e0 t0 =>
    rw [bind_thrown hfi] at hrun
    cases hrun
  | ok u0 s1 =>
    rw [bind_ok hfi] at hrun
    obtain ⟨hlogs1, hshots1⟩ := flowInit_ok_accums opts (mkState o base)
      s1 hfi
    cases hfb : flowBody steps s1 with
    | ok fb s3 =>
      rw [tryFinally_close_ok (tryCatch_ok hfb)] at hrun
      injection hrun with hfb_r hs4
      subst hfb_r
      unfold flowBody at hfb
      cases hsh : setExtraHTTPHeaders bypassHeaders s1 with
      | thrown e1 t1 =>
        rw [bind_thrown hsh] at hfb
        cases hfb
      | ok u1 s1h =>
        rw [bind_ok hsh] at hfb
        have hlogs1h : s1h.logs = s1.logs := by
          have hx := (setExtraHTTPHeaders_accums bypassHeaders s1).1
          rw [hsh] at hx
          exact hx
        unfold flowMain at hfb
        cases hrs : runSteps 0 steps s1h with
        | thrown e2 t2 =>
          rw [bind_thrown hrs] at hfb
          cases hfb
        | ok u2 s4 =>
          rw [bind_ok hrs] at hfb
          simp only [bind_def, getS, pure_def] at hfb
          injection hfb with hfb1 hfb2
          obtain ⟨L, hL, hsub⟩ := runSteps_ok_logs steps 0 s1h s4 hrs
          refine ⟨steps.length, Nat.le_refl _, ?_, fun _ => rfl, ?_⟩
          · rw [← hfb1]
            simp only [List.take_length]
            have hs4L : s4.logs = L := by
              rw [hL, hlogs1h, hlogs1]
              simp
            show List.Sublist (headersFrom 0 steps) s4.logs
            rw [hs4L]
            exact hsub
          · intro hfalse
            rw [← hfb1] at hfalse
            cases hfalse
    | thrown e s3 =>
      have hcatch : tryCatch (flowBody steps) flowCatch s1 = Outcome.ok
          { success := false, screenshots := s3.shots,
            logs := s3.logs ++ ["Error: " ++ e],
            timestamp := modelTimestamp } s3 := by
        rw [tryCatch_thrown hfb]
        rfl
      rw [tryFinally_close_ok hcatch] at hrun
      injection hrun with hfb_r hs4
      subst hfb_r
      unfold flowBody at hfb
      cases hsh : setExtraHTTPHeaders bypassHeaders s1 with
      | thrown e1 t1 =>
        rw [bind_thrown hsh] at hfb
        cases hfb
        have hlogs3 : s3.logs = [] := by
          have hx := (setExtraHTTPHeaders_accums bypassHeaders s1).1
          rw [hsh] at hx
          simp only [stOf] at hx
          rw [hx, hlogs1]
        refine ⟨0, Nat.zero_le _, ?_, ?_, fun _ => ?_⟩
        · simp [headersFrom]
        · intro htrue
          cases htrue
        · refine ⟨e, ?_⟩
          simp only [hlogs3, List.nil_append]
          rfl
      | ok u1 s1h =>
        rw [bind_ok hsh] at hfb
        have hlogs1h : s1h.logs = s1.logs := by
          have hx := (setExtraHTTPHeaders_accums bypassHeaders s1).1
          rw [hsh] at hx
          exact hx
        unfold flowMain at hfb
        cases hrs : runSteps 0 steps s1h with
        | ok u2 s4 =>
          rw [bind_ok hrs] at hfb
          simp only [bind_def, getS, pure_def] at hfb
          cases hfb
        | thrown e2 s4 =>
          rw [bind_thrown hrs] at hfb
          cases hfb
          obtain ⟨L, k2, hL, hk2, hsub⟩ :=
            runSteps_thrown_logs steps 0 s1h s3 e hrs
          have hlogsL : s3.logs = L := by
            rw [hL, hlogs1h, hlogs1]
            simp
          refine ⟨k2 + 1, hk2, ?_, ?_, fun _ => ?_⟩
          · rw [hlogsL]
            exact hsub.trans (List.sublist_append_left L _)
          · intro htrue
            cases htrue
          · exact ⟨e, List.getLast?_concat _⟩

/-- Witness for C3 as amended: on the concrete all-success run of the
one-step click-without-selector flow, the step header occurs in the
logs and the run succeeded. -/
theorem C3_witness :
    List.Sublist (headersFrom 0 [c3Step]) c3R.logs ∧
    c3R.success = true := by
  obtain ⟨⟨k, hk, hsub, hks, -⟩, -⟩ := C3_amended_logs_structure
    allOkOracle baseW [c3Step] {} c3R c3S rfl
  have hk1 : k = 1 := hks rfl
  subst hk1
  exact ⟨by simpa using hsub, rfl⟩

/-- Claim C7: a successful application of the auth bypass leaves
exactly the two fixed headers on the page, each key present exactly
once; applying it twice leaves the same two headers (idempotence, no
duplication); and in `takeAuthenticatedScreenshot` and `testUserFlow`
every navigation event in the trace is preceded by a header-injection
event (the bypass is applied before any navigation). -/
theorem C7_bypass_idempotent_before_navigation :
    (∀ s s1, setExtraHTTPHeaders bypassHeaders s = Outcome.ok () s1 →
      s1.headers = bypassHeaders ∧
      (s1.headers.map Prod.fst).count "x-test-auth-bypass" = 1 ∧
      (s1.headers.map Prod.fst).count "x-testing-mode" = 1 ∧
      ∀ s2, setExtraHTTPHeaders bypassHeaders s1 = Outcome.ok () s2 →
        s2.headers = s1.headers) ∧
    (∀ (o : Oracle) (base path : String)
      (opts : AuthenticatedBrowserOptions), GotoAfterHeaders
        (stOf (takeAuthenticatedScreenshot path opts
          (mkState o base))).trace) ∧
    (∀ (o : Oracle) (base : String) (steps : List FlowStep)
      (opts : AuthenticatedBrowserOptions), GotoAfterHeaders
        (stOf (testUserFlow steps opts (mkState o base))).trace) := by
  refine ⟨?_, ?_, ?_⟩
  · intro s s1 h
    cases hb : s.oracle.throwsAt s.calls
    case false =>
      simp only [setExtraHTTPHeaders, hb, Bool.false_eq_true, if_false,
        Outcome.ok.injEq, true_and] at h
      subst h
      refine ⟨rfl, ?_, ?_, ?_⟩
      · show (List.map Prod.fst bypassHeaders).count "x-test-auth-bypass" = 1
        decide
      · show (List.map Prod.fst bypassHeaders).count "x-testing-mode" = 1
        decide
      intro s2 h2
      cases hb2 : s.oracle.throwsAt (s.calls + 1)
      case false =>
        simp only [setExtraHTTPHeaders, hb2, Bool.false_eq_true,
          if_false, Outcome.ok.injEq, true_and] at h2
        subst h2
        rfl
      case true =>
        simp [setExtraHTTPHeaders, hb2] at h2
    case true =>
      simp [setExtraHTTPHeaders, hb] at h
  · intro o base path opts
    cases hb0 : o.throwsAt 0
    case true =>
      simp only [takeAuthenticatedScreenshot, mkState,
        getPlaywrightBrowser, bind_def, hb0, if_true, stOf]
      exact gotoAfterHeaders_of_no_goto _ (by simp)
    case false =>
    cases hb1 : o.throwsAt 1
    case true =>
      simp only [takeAuthenticatedScreenshot, mkState,
        getPlaywrightBrowser, newContext, bind_def, hb0, hb1,
        Nat.zero_add, Nat.reduceAdd, Bool.false_eq_true, if_false,
        if_true, stOf]
      exact gotoAfterHeaders_of_no_goto _ (by simp)
    case false =>
    cases hb2 : o.throwsAt 2
    case true =>
      simp only [takeAuthenticatedScreenshot, mkState,
        getPlaywrightBrowser, newContext, newPage, bind_def, hb0, hb1,
        hb2, Nat.zero_add, Nat.reduceAdd, Bool.false_eq_true, if_false,
        if_true, stOf]
      exact gotoAfterHeaders_of_no_goto _ (by simp)
    case false =>
    cases hb3 : o.throwsAt 3
    case true =>
      simp only [takeAuthenticatedScreenshot, screenshotBody,
        setExtraHTTPHeaders, mkState, getPlaywrightBrowser, newContext,
        newPage, tryFinally, finish, closeContext, bind_def, hb0, hb1,
        hb2, hb3, Nat.zero_add, Nat.reduceAdd, Bool.false_eq_true,
        if_false, if_true, stOf]
      exact gotoAfterHeaders_of_no_goto _ (by simp)
    case false =>
      simp only [takeAuthenticatedScreenshot, mkState,
        getPlaywrightBrowser, newContext, newPage, tryFinally, bind_def,
        hb0, hb1, hb2, Nat.zero_add, Nat.reduceAdd, Bool.false_eq_true,
        if_false, if_true]
      refine gotoAfterHeaders_close_of _
        (BrowserEvent.newContext (screenshotCtxOpts opts))
        BrowserEvent.newPage bypassHeaders (by simp) (by simp) ?_
      exact shotBody_trace_after_headers path opts _ hb3
  · intro o base steps opts
    cases hb0 : o.throwsAt 0
    case true =>
      simp only [testUserFlow, flowInit, mkState, getPlaywrightBrowser,
        bind_def, hb0, if_true, stOf]
      exact gotoAfterHeaders_of_no_goto _ (by simp)
    case false =>
    cases hb1 : o.throwsAt 1
    case true =>
      simp only [testUserFlow, flowInit, mkState, getPlaywrightBrowser,
        newContext, bind_def, hb0, hb1, Nat.zero_add, Nat.reduceAdd,
        Bool.false_eq_true, if_false, if_true, stOf]
      exact gotoAfterHeaders_of_no_goto _ (by simp)
    case false =>
    cases hb2 : o.throwsAt 2
    case true =>
      simp only [testUserFlow, flowInit, mkState, getPlaywrightBrowser,
        newContext, newPage, bind_def, hb0, hb1, hb2, Nat.zero_add,
        Nat.reduceAdd, Bool.false_eq_true, if_false, if_true, stOf]
      exact gotoAfterHeaders_of_no_goto _ (by simp)
    case false =>
    cases hb3 : o.throwsAt 3
    case true =>
      simp only [testUserFlow, flowInit, flowBody, flowCatch,
        setExtraHTTPHeaders, mkState, getPlaywrightBrowser, newContext,
        newPage, resetAccums, tryFinally, tryCatch, finish, closeContext,
        getS, bind_def, pure_def, hb0, hb1, hb2, hb3, Nat.zero_add,
        Nat.reduceAdd, Bool.false_eq_true, if_false, if_true, stOf]
      exact gotoAfterHeaders_of_no_goto _ (by simp)
    case false =>
      simp only [testUserFlow, flowInit, mkState, getPlaywrightBrowser,
        newContext, newPage, resetAccums, tryFinally, bind_def, hb0, hb1,
        hb2, Nat.zero_add, Nat.reduceAdd, Bool.false_eq_true, if_false,
        if_true]
      refine gotoAfterHeaders_close_of _
        (BrowserEvent.newContext (flowCtxOpts opts))
        BrowserEvent.newPage bypassHeaders (by simp) (by simp) ?_
      exact flowTry_trace_after_headers steps _ hb3

/-- Witness for C7 at a concrete environment: the header state after
one and two successful applications, and the goto-after-headers trace
property of a concrete screenshot run. -/
theorem C7_witness :
    c7S1.headers = bypassHeaders ∧ c7S2.headers = c7S1.headers ∧
    GotoAfterHeaders (stOf (takeAuthenticatedScreenshot "/" {}
      (mkState allOkOracle baseW))).trace := by
  obtain ⟨ha, hb, -⟩ := C7_bypass_idempotent_before_navigation
  obtain ⟨h1, -, -, h4⟩ := ha (mkState allOkOracle baseW) c7S1 rfl
  exact ⟨h1, h4 c7S2 rfl, hb allOkOracle baseW "/" {}⟩

/-- Claim C10: the keys title, url and userInfo of the scrape data
object are written after the requested selectors are processed, so they
always hold the page title, the resolved URL and the extracted
user-info object - even when the caller requested a selector literally
named title, url or userInfo (whose scraped contents are therefore
overwritten). -/
theorem C10_reserved_keys_written_last (o : Oracle) (base path : String)
    (selectors : List String) (opts : AuthenticatedBrowserOptions)
    (h0 : o.throwsAt 0 = false) (h1 : o.throwsAt 1 = false)
    (h2 : o.throwsAt 2 = false) (h3 : o.throwsAt 3 = false)
    (h4 : o.throwsAt 4 = false) :
    ∃ r s', scrapeAuthenticatedContent path selectors opts
        (mkState o base) = Outcome.ok r s' ∧
      lookupKey r.data "title" = some (ScrapeValue.str o.title) ∧
      lookupKey r.data "url" = some (ScrapeValue.str (base ++ path)) ∧
      lookupKey r.data "userInfo" =
        some (ScrapeValue.userInfo (extractUserInfo o)) := by
  rw [scrape_pre_reduce o base path selectors opts h0 h1 h2]
  obtain ⟨s', hrun, -⟩ :=
    scrapeBody_run path selectors (afterPre o base scrapeCtxOpts) h3 h4
  refine ⟨_, _, tryFinally_close_ok hrun, ?_, ?_, ?_⟩
  · rw [lookupKey_setKey_other _ _ _ _ (by decide),
      lookupKey_setKey_other _ _ _ _ (by decide), lookupKey_setKey_self]
    rfl
  · rw [lookupKey_setKey_other _ _ _ _ (by decide), lookupKey_setKey_self]
    rfl
  · rw [lookupKey_setKey_self]
    rfl

/-- Witness for C10 at a concrete environment where the caller requests
a selector literally named title: its scraped text contents are
overwritten by the page title. -/
theorem C10_witness :
    lookupKey c10Data "title" = some (ScrapeValue.str allOkOracle.title) ∧
    lookupKey c10Data "title" ≠
      some (ScrapeValue.texts (allOkOracle.texts "title")) := by
  obtain ⟨r, s', hrun, ht, hu, hui⟩ := C10_reserved_keys_written_last
    allOkOracle baseW "/feed" ["title"] {} rfl rfl rfl rfl rfl
  have hdata : c10Data = r.data := by
    unfold c10Data c10Out
    rw [hrun]
    rfl
  rw [hdata, ht]
  exact ⟨rfl, by decide⟩

/-- Counterexample to claim C6 as stated: a selector literally named
title does not map to the text contents of its matching elements - the
page-info write that happens after the selector loop overwrites it with
the page title. -/
theorem C6_counterexample :
    ∃ r s', scrapeAuthenticatedContent "/x" ["title"] {}
        (mkState allOkOracle baseW) = Outcome.ok r s' ∧
      lookupKey r.data "title" = some (ScrapeValue.str "PAGE") ∧
      lookupKey r.data "title" ≠
        some (ScrapeValue.texts ["t1", "t2"]) ∧
      allOkOracle.texts "title" = ["t1", "t2"] := by
  rw [scrape_pre_reduce allOkOracle baseW "/x" ["title"] {} rfl rfl rfl]
  obtain ⟨s', hrun, -⟩ := scrapeBody_run "/x" ["title"]
    (afterPre allOkOracle baseW scrapeCtxOpts) rfl rfl
  refine ⟨_, _, tryFinally_close_ok hrun, ?_, ?_, rfl⟩
  · rw [lookupKey_setKey_other _ _ _ _ (by decide),
      lookupKey_setKey_other _ _ _ _ (by decide), lookupKey_setKey_self]
    rfl
  · rw [lookupKey_setKey_other _ _ _ _ (by decide),
      lookupKey_setKey_other _ _ _ _ (by decide), lookupKey_setKey_self]
    decide

/-- Claim C6 as amended: for a duplicate-free selector list avoiding
the reserved keys title, url and userInfo, each selector maps to the
ordered text contents of its matching elements; if the evaluation of
selector number j throws (browser call 6 + j), that selector maps to a
string describing the error while every other selector's value is
decided only by its own call; the scrape as a whole still returns ok
with every requested key present. -/
theorem C6_amended_per_selector_isolation (o : Oracle)
    (base path : String) (selectors : List String)
    (opts : AuthenticatedBrowserOptions) (hnd : selectors.Nodup)
    (hti : "title" ∉ selectors) (hur : "url" ∉ selectors)
    (hui : "userInfo" ∉ selectors)
    (h0 : o.throwsAt 0 = false) (h1 : o.throwsAt 1 = false)
    (h2 : o.throwsAt 2 = false) (h3 : o.throwsAt 3 = false)
    (h4 : o.throwsAt 4 = false) :
    ∃ r s', scrapeAuthenticatedContent path selectors opts
        (mkState o base) = Outcome.ok r s' ∧
      ∀ j (hj : j < selectors.length),
        lookupKey r.data (selectors.get ⟨j, hj⟩) =
          some (if o.throwsAt (6 + j) then
            ScrapeValue.errorString
              ("Error: " ++ ("allTextContents " ++ selectors.get ⟨j, hj⟩))
          else
            ScrapeValue.texts (o.texts (selectors.get ⟨j, hj⟩))) := by
  rw [scrape_pre_reduce o base path selectors opts h0 h1 h2]
  obtain ⟨s', hrun, -⟩ :=
    scrapeBody_run path selectors (afterPre o base scrapeCtxOpts) h3 h4
  refine ⟨_, _, tryFinally_close_ok hrun, ?_⟩
  intro j hj
  have hmem : selectors.get ⟨j, hj⟩ ∈ selectors := List.get_mem _ _ _
  have hne1 : selectors.get ⟨j, hj⟩ ≠ "userInfo" :=
    fun h => hui (h ▸ hmem)
  have hne2 : selectors.get ⟨j, hj⟩ ≠ "url" := fun h => hur (h ▸ hmem)
  have hne3 : selectors.get ⟨j, hj⟩ ≠ "title" := fun h => hti (h ▸ hmem)
  rw [lookupKey_setKey_other _ _ _ _ hne1,
    lookupKey_setKey_other _ _ _ _ hne2,
    lookupKey_setKey_other _ _ _ _ hne3]
  exact lookupKey_scrapeValsFrom o selectors 6 [] j hj hnd

/-- Witness for C6 as amended: concrete scrape of two selectors where
the second one (browser call 7) throws - the first still maps to its
text contents, the second to an error string, both keys present. -/
theorem C6_witness :
    lookupKey c6Data ".post-title" = some (ScrapeValue.texts ["t1", "t2"]) ∧
    lookupKey c6Data ".nonexistent" = some (ScrapeValue.errorString
      ("Error: " ++ ("allTextContents " ++ ".nonexistent"))) := by
  obtain ⟨r, s', hrun, hall⟩ := C6_amended_per_selector_isolation
    c6Oracle baseW "/feed" [".post-title", ".nonexistent"] {}
    (by decide) (by decide) (by decide) (by decide)
    rfl rfl rfl rfl rfl
  have hdata : c6Data = r.data := by
    unfold c6Data c6Out
    rw [hrun]
    rfl
  have h0 := hall 0 (by decide)
  have h1 := hall 1 (by decide)
  rw [hdata]
  exact ⟨h0, h1⟩

/-- Counterexample to claim C4 as stated: `scrapeAuthenticatedContent`
creates its context with `browser.newContext()` and no options at all,
so with explicit viewport 800x600 and user agent UA in the options the
opened context still has no viewport and no user agent. -/
theorem C4_counterexample :
    ∃ r s', scrapeAuthenticatedContent "/x" []
        { viewport := some ⟨800, 600⟩, userAgent := some "UA" }
        (mkState allOkOracle baseW) = Outcome.ok r s' ∧
      BrowserEvent.newContext { viewport := none, userAgent := none } ∈
        s'.trace ∧
      BrowserEvent.newContext
          { viewport := some ⟨800, 600⟩, userAgent := some "UA" } ∉
        s'.trace ∧
      s'.viewport = none := by
  refine ⟨_, _, rfl, by decide, by decide, rfl⟩

/-- Claim C4 as amended: only `takeAuthenticatedScreenshot` passes both
the viewport (from options or the 1920x1080 default) and the user agent
(from options or the default string) to its fresh context;
`generateAuthenticatedPDF` and `testUserFlow` pass only the viewport
(from options or the default) and no user agent; and
`scrapeAuthenticatedContent` passes no context options at all,
ignoring `options`. -/
theorem C4_amended_context_options (o : Oracle) (base path : String)
    (opts : AuthenticatedBrowserOptions) (steps : List FlowStep)
    (selectors : List String)
    (h0 : o.throwsAt 0 = false) (h1 : o.throwsAt 1 = false)
    (h2 : o.throwsAt 2 = false) :
    BrowserEvent.newContext
        { viewport := some (opts.viewport.getD defaultViewport),
          userAgent := some (opts.userAgent.getD defaultUserAgent) } ∈
      (stOf (takeAuthenticatedScreenshot path opts (mkState o base))).trace ∧
    BrowserEvent.newContext
        { viewport := some (opts.viewport.getD defaultViewport),
          userAgent := none } ∈
      (stOf (generateAuthenticatedPDF path opts (mkState o base))).trace ∧
    BrowserEvent.newContext
        { viewport := some (opts.viewport.getD defaultViewport),
          userAgent := none } ∈
      (stOf (testUserFlow steps opts (mkState o base))).trace ∧
    BrowserEvent.newContext { viewport := none, userAgent := none } ∈
      (stOf (scrapeAuthenticatedContent path selectors opts
        (mkState o base))).trace := by
  refine ⟨?_, ?_, ?_, ?_⟩
  · rw [shot_pre_reduce o base path opts h0 h1 h2]
    exact mem_trace_of_grows
      (growsOn_tryFinally (growsOn_screenshotBody path opts)
        growsOn_closeContext _)
      (by simp [afterPre, screenshotCtxOpts])
  · rw [pdf_pre_reduce o base path opts h0 h1 h2]
    exact mem_trace_of_grows
      (growsOn_tryFinally (growsOn_pdfBody path) growsOn_closeContext _)
      (by simp [afterPre, pdfCtxOpts])
  · rw [flow_pre_reduce o base steps opts h0 h1 h2]
    exact mem_trace_of_grows
      (growsOn_tryFinally
        (growsOn_tryCatch (growsOn_flowBody steps) growsOn_flowCatch)
        growsOn_closeContext _)
      (by simp [afterPre, flowCtxOpts])
  · rw [scrape_pre_reduce o base path selectors opts h0 h1 h2]
    exact mem_trace_of_grows
      (growsOn_tryFinally (growsOn_scrapeBody path selectors)
        growsOn_closeContext _)
      (by simp [afterPre, scrapeCtxOpts])

/-- Witness for C4 as amended, at an all-succeeding environment with
explicit options. -/
theorem C4_witness :
    BrowserEvent.newContext
        { viewport := some ⟨640, 480⟩,
          userAgent := some defaultUserAgent } ∈
      (stOf (takeAuthenticatedScreenshot "/p"
        { viewport := some ⟨640, 480⟩ } (mkState allOkOracle baseW))).trace ∧
    BrowserEvent.newContext { viewport := none, userAgent := none } ∈
      (stOf (scrapeAuthenticatedContent "/p" []
        { viewport := some ⟨640, 480⟩ } (mkState allOkOracle baseW))).trace := by
  obtain ⟨ha, -, -, hd⟩ := C4_amended_context_options allOkOracle baseW
    "/p" { viewport := some ⟨640, 480⟩ } [] [] rfl rfl rfl
  exact ⟨ha, hd⟩

/-- Witness for C8 at a concrete environment: the A4 PDF event is in
the trace of a run where every browser call succeeds. -/
theorem C8_witness :
    BrowserEvent.pdf "A4" true "1in" "1in" "1in" "1in" ∈
      (stOf (generateAuthenticatedPDF "/report" {}
        (mkState allOkOracle baseW))).trace := by
  obtain ⟨r, s', hrun, hpdf, hev, ht, hu⟩ :=
    C8_pdf_format_and_data_uri allOkOracle baseW "/report" {}
      rfl rfl rfl rfl rfl rfl
  rw [hrun]
  exact hev

end BrowserlessAuth
